import Mathlib

/-!
# xt_SECMARK: packet security mark target

A shallow embedding of `net/netfilter/xt_SECMARK.c`.  The module keeps one
file-scope variable (`static u8 mode`), calls four functions of the SELinux
subsystem and `printk`, and exports three callbacks: `secmark_tg_check`
(install), `secmark_tg` (per packet) and `secmark_tg_destroy` (teardown).

The file-scope variable and the calls made to the outside are carried in an
explicit `State`; the answers of the SELinux subsystem are taken from a
`Selinux` record of functions.
-/

namespace XtSecmark

/-! ## Constants and types of the headers -/

/-- Constants that the source takes from headers (`linux/netfilter/xt_SECMARK.h`,
`linux/netfilter/x_tables.h`, `errno.h`).  They are parameters of the
development: nothing below depends on their value unless a theorem says so. -/
structure Consts where
  SECMARK_MODE_SEL : Nat
  SECMARK_SELCTX_MAX : Nat
  XT_CONTINUE : Nat
  EINVAL : Int

/-- The values the kernel headers give to the constants; used for concrete runs. -/
def linuxConsts : Consts :=
  { SECMARK_MODE_SEL := 1, SECMARK_SELCTX_MAX := 256, XT_CONTINUE := 4294967295, EINVAL := 22 }

/-- The member `sel` of the union: `__u32 selsid; char selctx[SECMARK_SELCTX_MAX]`.
Bytes of the buffer are natural numbers, the terminator is `0`; a buffer as the
C type has it is a list of `SECMARK_SELCTX_MAX` bytes. -/
structure xt_secmark_target_selinux_info where
  selsid : Nat
  selctx : List Nat
  deriving DecidableEq, Repr

/-- The union `u` of `struct xt_secmark_target_info`; it has the single member `sel`. -/
structure xt_secmark_target_info_u where
  sel : xt_secmark_target_selinux_info
  deriving DecidableEq, Repr

/-- The rule configuration `struct xt_secmark_target_info`: `__u8 mode` and the
union `u`.  The mode is only ever compared, so it is a natural number. -/
structure xt_secmark_target_info where
  mode : Nat
  u : xt_secmark_target_info_u
  deriving DecidableEq, Repr

/-- The part of `struct sk_buff` the target can see: the `secmark` field, and the
rest of the packet as `data`. -/
structure sk_buff where
  secmark : Nat
  data : List Nat
  deriving DecidableEq, Repr

/-- The fields of `struct xt_tgchk_param` read by the target: table name and rule. -/
structure xt_tgchk_param where
  table : String
  targinfo : xt_secmark_target_info
  deriving DecidableEq, Repr

/-- The field of `struct xt_target_param` read by the target. -/
structure xt_target_param where
  targinfo : xt_secmark_target_info
  deriving DecidableEq, Repr

/-- The field of `struct xt_tgdtor_param` that names the rule being removed. -/
structure xt_tgdtor_param where
  targinfo : xt_secmark_target_info
  deriving DecidableEq, Repr

/-! ## The outside world -/

/-- The `printk` calls of the source, one constructor per format string, with the
arguments that are formatted into it. -/
inductive Printk where
  /-- Format "invalid SELinux context '%s'" of `checkentry_selinux`. -/
  | invalid_context (selctx : List Nat)
  /-- Format "unable to map SELinux context '%s'" of `checkentry_selinux`. -/
  | unable_to_map (selctx : List Nat)
  /-- Format "unable to obtain relabeling permission" of `checkentry_selinux`. -/
  | no_relabel_permission
  /-- Format "target only valid in the 'mangle' or 'security' tables, not '%s'." -/
  | wrong_table (table : String)
  /-- Format "mode already set to %hu cannot mix with rules for mode %hu". -/
  | mode_mix (mode : Nat) (info_mode : Nat)
  /-- Format "invalid mode: %hu" of `secmark_tg_check`. -/
  | invalid_mode (info_mode : Nat)
  deriving DecidableEq, Repr

/-- One call made by the module to the outside, in the order it is made. -/
inductive Event where
  | printk (msg : Printk)
  | selinux_string_to_sid (str : List Nat)
  | selinux_secmark_relabel_packet_permission (sid : Nat)
  | selinux_secmark_refcount_inc
  | selinux_secmark_refcount_dec
  deriving DecidableEq, Repr

/-- The answers of the SELinux subsystem.  `selinux_string_to_sid str` gives the
returned error code and the value left in `*sid`;
`selinux_secmark_relabel_packet_permission sid` gives the returned error code. -/
structure Selinux where
  selinux_string_to_sid : List Nat → Int × Nat
  selinux_secmark_relabel_packet_permission : Nat → Int

/-- The global state: the file-scope `static u8 mode` and the calls made so far
(oldest first). -/
structure State where
  mode : Nat
  trace : List Event
  deriving DecidableEq, Repr

/-- The state at module load: `mode` is zero-initialised and nothing was called. -/
def State.init : State := { mode := 0, trace := [] }

/-- Record one call to the outside. -/
def State.call (st : State) (e : Event) : State :=
  { st with trace := st.trace ++ [e] }

/-- The C string held in a buffer: the bytes before the first terminator. -/
def c_str (buf : List Nat) : List Nat :=
  buf.takeWhile (fun b => b != 0)

/-- The bytes of a string literal, for writing tables and contexts down. -/
def bytes (s : String) : List Nat :=
  s.toList.map Char.toNat

/-- A buffer of `n` bytes that holds the string `s` followed by terminators. -/
def buffer (n : Nat) (s : String) : List Nat :=
  (bytes s ++ List.replicate n 0).take n

/-! ## The functions of the source -/

/-- What `checkentry_selinux` and `secmark_tg_check` leave behind: the returned
`bool`, the rule configuration (it is written through the pointer) and the
global state. -/
structure CheckResult where
  ret : Bool
  targinfo : xt_secmark_target_info
  st : State
  deriving DecidableEq, Repr

/-- The function `checkentry_selinux` (source lines 52-81). -/
def checkentry_selinux (K : Consts) (E : Selinux) (info : xt_secmark_target_info)
    (st : State) : CheckResult :=
  -- sel->selctx[SECMARK_SELCTX_MAX - 1] = '\0';
  let selctx := info.u.sel.selctx.set (K.SECMARK_SELCTX_MAX - 1) 0
  -- err = selinux_string_to_sid(sel->selctx, &sel->selsid);
  let r := E.selinux_string_to_sid (c_str selctx)
  let err := r.1
  let info1 : xt_secmark_target_info :=
    { mode := info.mode, u := { sel := { selsid := r.2, selctx := selctx } } }
  let st1 := st.call (Event.selinux_string_to_sid (c_str selctx))
  if err ≠ 0 then
    if err = -K.EINVAL then
      { ret := false, targinfo := info1,
        st := st1.call (Event.printk (Printk.invalid_context (c_str selctx))) }
    else
      { ret := false, targinfo := info1, st := st1 }
  else if info1.u.sel.selsid = 0 then
    { ret := false, targinfo := info1,
      st := st1.call (Event.printk (Printk.unable_to_map (c_str selctx))) }
  else
    -- err = selinux_secmark_relabel_packet_permission(sel->selsid);
    let err2 := E.selinux_secmark_relabel_packet_permission info1.u.sel.selsid
    let st2 := st1.call (Event.selinux_secmark_relabel_packet_permission info1.u.sel.selsid)
    if err2 ≠ 0 then
      { ret := false, targinfo := info1,
        st := st2.call (Event.printk Printk.no_relabel_permission) }
    else
      { ret := true, targinfo := info1, st := st2.call Event.selinux_secmark_refcount_inc }

/-- The function `secmark_tg_check` (source lines 83-114). -/
def secmark_tg_check (K : Consts) (E : Selinux) (par : xt_tgchk_param)
    (st : State) : CheckResult :=
  let info := par.targinfo
  if par.table ≠ "mangle" ∧ par.table ≠ "security" then
    { ret := false, targinfo := info,
      st := st.call (Event.printk (Printk.wrong_table par.table)) }
  else if st.mode ≠ 0 ∧ st.mode ≠ info.mode then
    { ret := false, targinfo := info,
      st := st.call (Event.printk (Printk.mode_mix st.mode info.mode)) }
  else if info.mode = K.SECMARK_MODE_SEL then
    let r := checkentry_selinux K E info st
    if r.ret = false then
      { ret := false, targinfo := r.targinfo, st := r.st }
    else if r.st.mode = 0 then
      { ret := true, targinfo := r.targinfo, st := { r.st with mode := r.targinfo.mode } }
    else
      { ret := true, targinfo := r.targinfo, st := r.st }
  else
    { ret := false, targinfo := info,
      st := st.call (Event.printk (Printk.invalid_mode info.mode)) }

/-- The function `secmark_tg` (source lines 31-50).  `none` is a kernel BUG: the
`BUG_ON(info->mode != mode)` or the `BUG()` of the default case.  Otherwise the
packet as left by the call and the returned verdict. -/
def secmark_tg (K : Consts) (st : State) (skb : sk_buff) (par : xt_target_param) :
    Option (sk_buff × Nat) :=
  let info := par.targinfo
  if info.mode ≠ st.mode then none
  else if st.mode = K.SECMARK_MODE_SEL then
    some ({ skb with secmark := info.u.sel.selsid }, K.XT_CONTINUE)
  else none

/-- The function `secmark_tg_destroy` (source lines 116-122).  It has no return
value and does not read its parameter. -/
def secmark_tg_destroy (K : Consts) (_par : xt_tgdtor_param) (st : State) : State :=
  if st.mode = K.SECMARK_MODE_SEL then st.call Event.selinux_secmark_refcount_dec
  else st

/-! ## Rules over time -/

/-- Number of `selinux_secmark_refcount_inc` calls made so far (acquires). -/
def acquires (st : State) : Nat :=
  st.trace.count Event.selinux_secmark_refcount_inc

/-- Number of `selinux_secmark_refcount_dec` calls made so far (releases). -/
def releases (st : State) : Nat :=
  st.trace.count Event.selinux_secmark_refcount_dec

/-- The module together with the rules the framework holds for it: the global
state and the configurations of the active rules (accepted by
`secmark_tg_check`, not yet handed to `secmark_tg_destroy`), oldest first. -/
structure System where
  st : State
  rules : List xt_secmark_target_info
  deriving DecidableEq, Repr

/-- The system after module load: `mode` unset, no rule. -/
def System.init : System := { st := State.init, rules := [] }

/-- What the framework does with the target: it installs a rule (in a table, with
the answers SELinux gives at that moment), runs a packet through the `i`-th
active rule, or removes the `i`-th active rule. -/
inductive Op where
  | install (E : Selinux) (par : xt_tgchk_param)
  | tag (i : Nat) (skb : sk_buff)
  | teardown (i : Nat)

/-- One operation of the framework.  `none` when the framework cannot do it (there
is no `i`-th active rule) or when the kernel stops in a BUG. -/
def step (K : Consts) (s : System) : Op → Option System
  | Op.install E par =>
      let r := secmark_tg_check K E par s.st
      if r.ret = true then some { st := r.st, rules := s.rules ++ [r.targinfo] }
      else some { st := r.st, rules := s.rules }
  | Op.tag i skb =>
      match s.rules.get? i with
      | none => none
      | some info =>
          match secmark_tg K s.st skb { targinfo := info } with
          | none => none
          | some _ => some s
  | Op.teardown i =>
      match s.rules.get? i with
      | none => none
      | some info =>
          some { st := secmark_tg_destroy K { targinfo := info } s.st,
                 rules := s.rules.eraseIdx i }

/-- A sequence of operations, from left to right. -/
def run (K : Consts) (s : System) : List Op → Option System
  | [] => some s
  | op :: ops => (step K s op).bind (fun s1 => run K s1 ops)

/-- The relation between the global state and the active rules that holds after
module load and is kept by every operation: `mode` is unset or
`SECMARK_MODE_SEL`; it is `SECMARK_MODE_SEL` while a rule is active; it is unset
while nothing was acquired; every active rule has mode `SECMARK_MODE_SEL` and a
non-zero id; and the acquires exceed the releases by the number of active
rules. -/
def Consistent (K : Consts) (s : System) : Prop :=
  (s.st.mode = 0 ∨ s.st.mode = K.SECMARK_MODE_SEL) ∧
  (s.rules ≠ [] → s.st.mode = K.SECMARK_MODE_SEL) ∧
  (acquires s.st = 0 → s.st.mode = 0) ∧
  (∀ info ∈ s.rules, info.mode = K.SECMARK_MODE_SEL ∧ info.u.sel.selsid ≠ 0) ∧
  acquires s.st = releases s.st + s.rules.length

instance (K : Consts) (s : System) : Decidable (Consistent K s) := by
  unfold Consistent
  infer_instance

/-! ## Concrete data for the examples -/

/-- An SELinux that knows two contexts, maps them to the ids 1042 and 7, reports
every other string as malformed, and grants relabeling for every id but 7. -/
def demoSelinux : Selinux :=
  { selinux_string_to_sid := fun str =>
      if str = bytes "system_u:object_r:httpd_t:s0" then (0, 1042)
      else if str = bytes "system_u:object_r:ssh_t:s0" then (0, 7)
      else (-22, 0),
    selinux_secmark_relabel_packet_permission := fun sid => if sid = 7 then -13 else 0 }

/-- An SELinux like `demoSelinux` that grants relabeling for every id. -/
def openSelinux : Selinux :=
  { demoSelinux with selinux_secmark_relabel_packet_permission := fun _ => 0 }

/-- An SELinux whose resolver fails for every string with the error -12 (out of
memory), which is not `-EINVAL`. -/
def busySelinux : Selinux :=
  { selinux_string_to_sid := fun _ => (-12, 0),
    selinux_secmark_relabel_packet_permission := fun _ => 0 }

/-- A rule of mode 1 whose buffer is filled with 256 bytes 'A' and holds no
terminator; the id field holds 5. -/
def fullRule : xt_secmark_target_info :=
  { mode := 1, u := { sel := { selsid := 5, selctx := List.replicate 256 65 } } }

/-- A rule of mode 1 for the context "system_u:object_r:httpd_t:s0" whose id
field holds 5 on input. -/
def staleRule : xt_secmark_target_info :=
  { mode := 1,
    u := { sel := { selsid := 5, selctx := buffer 256 "system_u:object_r:httpd_t:s0" } } }

/-- A rule as `secmark_tg_check` leaves it after accepting the context
"system_u:object_r:httpd_t:s0" with id 1042. -/
def demoActive : xt_secmark_target_info :=
  { mode := 1,
    u := { sel := { selsid := 1042, selctx := buffer 256 "system_u:object_r:httpd_t:s0" } } }

/-- A rule of mode `m` whose buffer holds the context `ctx`, id field zero. -/
def demoRule (m : Nat) (ctx : String) : xt_secmark_target_info :=
  { mode := m, u := { sel := { selsid := 0, selctx := buffer 256 ctx } } }

/-- A run of the framework: an accepted install, an install refused for lack of
permission, a second accepted install with another context, a packet through
the second rule, the removal of the first rule, an install in a wrong table, and
the removal of the remaining rule. -/
def demoOps : List Op :=
  [Op.install demoSelinux
      { table := "security", targinfo := demoRule 1 "system_u:object_r:httpd_t:s0" },
    Op.install demoSelinux
      { table := "mangle", targinfo := demoRule 1 "system_u:object_r:ssh_t:s0" },
    Op.install openSelinux
      { table := "mangle", targinfo := demoRule 1 "system_u:object_r:ssh_t:s0" },
    Op.tag 1 { secmark := 5, data := [69, 0] },
    Op.teardown 0,
    Op.install demoSelinux
      { table := "filter", targinfo := demoRule 1 "system_u:object_r:httpd_t:s0" },
    Op.teardown 0]

/-- The system after the first operation of `demoOps`. -/
def demoFirst : System :=
  (run linuxConsts System.init (demoOps.take 1)).getD System.init

/-- The system after all of `demoOps`. -/
def demoFinal : System :=
  (run linuxConsts System.init demoOps).getD System.init

/-! ## Basic facts about the state -/

section Basics

variable (K : Consts) (E : Selinux)

@[simp] theorem State.call_mode (st : State) (e : Event) : (st.call e).mode = st.mode := rfl

@[simp] theorem State.call_trace (st : State) (e : Event) :
    (st.call e).trace = st.trace ++ [e] := rfl

theorem acquires_call (st : State) (e : Event) :
    acquires (st.call e) =
      acquires st + (if e = Event.selinux_secmark_refcount_inc then 1 else 0) := by
  unfold acquires
  by_cases h : e = Event.selinux_secmark_refcount_inc
  · subst h; simp
  · simp [h, List.count_singleton]

theorem releases_call (st : State) (e : Event) :
    releases (st.call e) =
      releases st + (if e = Event.selinux_secmark_refcount_dec then 1 else 0) := by
  unfold releases
  by_cases h : e = Event.selinux_secmark_refcount_dec
  · subst h; simp
  · simp [h, List.count_singleton]

/-- The function `checkentry_selinux` never writes the file-scope `mode`. -/
theorem checkentry_selinux_mode (info : xt_secmark_target_info) (st : State) :
    (checkentry_selinux K E info st).st.mode = st.mode := by
  unfold checkentry_selinux
  simp only
  split_ifs <;> rfl

/-- The function `checkentry_selinux` never writes the `mode` field of the rule. -/
theorem checkentry_selinux_info_mode (info : xt_secmark_target_info) (st : State) :
    (checkentry_selinux K E info st).targinfo.mode = info.mode := by
  unfold checkentry_selinux
  simp only
  split_ifs <;> rfl

/-- When `checkentry_selinux` returns true: the resolver returned 0 and left a
non-zero id, and the permission check returned 0 for it. -/
theorem checkentry_selinux_ret (info : xt_secmark_target_info) (st : State) :
    (checkentry_selinux K E info st).ret = true ↔
      (E.selinux_string_to_sid
        (c_str (info.u.sel.selctx.set (K.SECMARK_SELCTX_MAX - 1) 0))).1 = 0 ∧
      (E.selinux_string_to_sid
        (c_str (info.u.sel.selctx.set (K.SECMARK_SELCTX_MAX - 1) 0))).2 ≠ 0 ∧
      E.selinux_secmark_relabel_packet_permission
        (E.selinux_string_to_sid
          (c_str (info.u.sel.selctx.set (K.SECMARK_SELCTX_MAX - 1) 0))).2 = 0 := by
  unfold checkentry_selinux
  simp only
  split_ifs with h1 h2 h3 h4
  · exact ⟨fun h => (by cases h), fun h => absurd h.1 h1⟩
  · exact ⟨fun h => (by cases h), fun h => absurd h.1 h1⟩
  · exact ⟨fun h => (by cases h), fun h => absurd h3 h.2.1⟩
  · exact ⟨fun h => (by cases h), fun h => absurd h.2.2 h4⟩
  · exact ⟨fun _ => ⟨not_not.mp h1, h3, not_not.mp h4⟩, fun _ => rfl⟩

/-- What `checkentry_selinux` leaves behind when it returns true: the id left by
the resolver is in the rule, and three calls were made, the last one the
acquire. -/
theorem checkentry_selinux_accept (info : xt_secmark_target_info) (st : State)
    (h : (checkentry_selinux K E info st).ret = true) :
    (checkentry_selinux K E info st).targinfo.u.sel.selsid =
        (E.selinux_string_to_sid
          (c_str (info.u.sel.selctx.set (K.SECMARK_SELCTX_MAX - 1) 0))).2 ∧
      (checkentry_selinux K E info st).st.trace = st.trace ++
        [Event.selinux_string_to_sid
            (c_str (info.u.sel.selctx.set (K.SECMARK_SELCTX_MAX - 1) 0)),
          Event.selinux_secmark_relabel_packet_permission
            (E.selinux_string_to_sid
              (c_str (info.u.sel.selctx.set (K.SECMARK_SELCTX_MAX - 1) 0))).2,
          Event.selinux_secmark_refcount_inc] := by
  revert h
  unfold checkentry_selinux
  simp only
  split_ifs with h1 h2 h3 h4
  · intro h; cases h
  · intro h; cases h
  · intro h; cases h
  · intro h; cases h
  · intro _; exact ⟨rfl, by simp⟩

/-- What `checkentry_selinux` leaves behind when it returns false: the calls it
made contain neither the acquire nor the release. -/
theorem checkentry_selinux_reject (info : xt_secmark_target_info) (st : State)
    (h : (checkentry_selinux K E info st).ret = false) :
    ∃ evs, (checkentry_selinux K E info st).st.trace = st.trace ++ evs ∧
      Event.selinux_secmark_refcount_inc ∉ evs ∧
      Event.selinux_secmark_refcount_dec ∉ evs := by
  revert h
  unfold checkentry_selinux
  simp only
  generalize c_str (info.u.sel.selctx.set (K.SECMARK_SELCTX_MAX - 1) 0) = str
  generalize E.selinux_string_to_sid str = r
  split_ifs with h1 h2 h3 h4
  · intro _
    exact ⟨[Event.selinux_string_to_sid str, Event.printk (Printk.invalid_context str)],
      by simp, by simp, by simp⟩
  · intro _
    exact ⟨[Event.selinux_string_to_sid str], by simp, by simp, by simp⟩
  · intro _
    exact ⟨[Event.selinux_string_to_sid str, Event.printk (Printk.unable_to_map str)],
      by simp, by simp, by simp⟩
  · intro _
    exact ⟨[Event.selinux_string_to_sid str,
        Event.selinux_secmark_relabel_packet_permission r.2,
        Event.printk Printk.no_relabel_permission], by simp, by simp, by simp⟩
  · intro h; cases h

theorem acquires_append (st st1 : State) (evs : List Event)
    (h : st1.trace = st.trace ++ evs) (hn : Event.selinux_secmark_refcount_inc ∉ evs) :
    acquires st1 = acquires st := by
  unfold acquires
  rw [h, List.count_append, List.count_eq_zero_of_not_mem hn, Nat.add_zero]

theorem releases_append (st st1 : State) (evs : List Event)
    (h : st1.trace = st.trace ++ evs) (hn : Event.selinux_secmark_refcount_dec ∉ evs) :
    releases st1 = releases st := by
  unfold releases
  rw [h, List.count_append, List.count_eq_zero_of_not_mem hn, Nat.add_zero]

/-- The shape of an accepting `secmark_tg_check`: the rule has mode
`SECMARK_MODE_SEL`, there was no mode conflict, `checkentry_selinux` returned
true, the rule and the calls are those it left, and `mode` is the rule's mode. -/
theorem secmark_tg_check_accept (par : xt_tgchk_param) (st : State)
    (h : (secmark_tg_check K E par st).ret = true) :
    (checkentry_selinux K E par.targinfo st).ret = true ∧
      par.targinfo.mode = K.SECMARK_MODE_SEL ∧
      (st.mode = 0 ∨ st.mode = par.targinfo.mode) ∧
      (secmark_tg_check K E par st).targinfo =
        (checkentry_selinux K E par.targinfo st).targinfo ∧
      (secmark_tg_check K E par st).st.trace =
        (checkentry_selinux K E par.targinfo st).st.trace ∧
      (secmark_tg_check K E par st).st.mode = par.targinfo.mode := by
  have hm := checkentry_selinux_mode K E par.targinfo st
  have hi := checkentry_selinux_info_mode K E par.targinfo st
  revert h
  unfold secmark_tg_check
  simp only
  split_ifs with h1 h2 h3 h4 h5
  · intro h; cases h
  · intro h; cases h
  · intro h; cases h
  · intro _; exact ⟨by simpa using h4, h3, by tauto, rfl, rfl, hi⟩
  · intro _
    have h2a : st.mode = 0 ∨ st.mode = par.targinfo.mode := by tauto
    refine ⟨by simpa using h4, h3, h2a, rfl, rfl, ?_⟩
    rw [hm]
    rw [hm] at h5
    rcases h2a with h0 | h0
    · exact absurd h0 h5
    · exact h0
  · intro h; cases h

/-- The shape of a rejecting `secmark_tg_check`: `mode` is not written and the
calls made contain neither the acquire nor the release. -/
theorem secmark_tg_check_reject (par : xt_tgchk_param) (st : State)
    (h : (secmark_tg_check K E par st).ret = false) :
    (secmark_tg_check K E par st).st.mode = st.mode ∧
      ∃ evs, (secmark_tg_check K E par st).st.trace = st.trace ++ evs ∧
        Event.selinux_secmark_refcount_inc ∉ evs ∧
        Event.selinux_secmark_refcount_dec ∉ evs := by
  have hm := checkentry_selinux_mode K E par.targinfo st
  revert h
  unfold secmark_tg_check
  simp only
  split_ifs with h1 h2 h3 h4 h5
  · intro _
    exact ⟨rfl, [Event.printk (Printk.wrong_table par.table)], rfl, by simp, by simp⟩
  · intro _
    exact ⟨rfl, [Event.printk (Printk.mode_mix st.mode par.targinfo.mode)], rfl,
      by simp, by simp⟩
  · intro _
    exact ⟨hm, checkentry_selinux_reject K E par.targinfo st h4⟩
  · intro h; cases h
  · intro h; cases h
  · intro _
    exact ⟨rfl, [Event.printk (Printk.invalid_mode par.targinfo.mode)], rfl,
      by simp, by simp⟩

/-- The function `secmark_tg_destroy` never writes the file-scope `mode`. -/
theorem secmark_tg_destroy_mode (par : xt_tgdtor_param) (st : State) :
    (secmark_tg_destroy K par st).mode = st.mode := by
  unfold secmark_tg_destroy
  split_ifs <;> rfl

/-- The function `secmark_tg_destroy` calls the release once when `mode` is
`SECMARK_MODE_SEL`, and never the acquire. -/
theorem secmark_tg_destroy_counts (par : xt_tgdtor_param) (st : State)
    (h : st.mode = K.SECMARK_MODE_SEL) :
    releases (secmark_tg_destroy K par st) = releases st + 1 ∧
      acquires (secmark_tg_destroy K par st) = acquires st := by
  unfold secmark_tg_destroy
  rw [if_pos h, releases_call, acquires_call]
  simp

/-- An accepting `secmark_tg_check` adds one acquire and no release. -/
theorem secmark_tg_check_accept_counts (par : xt_tgchk_param) (st : State)
    (h : (secmark_tg_check K E par st).ret = true) :
    acquires (secmark_tg_check K E par st).st = acquires st + 1 ∧
      releases (secmark_tg_check K E par st).st = releases st := by
  obtain ⟨hret, -, -, -, htrace, -⟩ := secmark_tg_check_accept K E par st h
  obtain ⟨-, htr⟩ := checkentry_selinux_accept K E par.targinfo st hret
  unfold acquires releases
  rw [htrace, htr, List.count_append, List.count_append]
  simp

/-- A rejecting `secmark_tg_check` adds neither an acquire nor a release. -/
theorem secmark_tg_check_reject_counts (par : xt_tgchk_param) (st : State)
    (h : (secmark_tg_check K E par st).ret = false) :
    acquires (secmark_tg_check K E par st).st = acquires st ∧
      releases (secmark_tg_check K E par st).st = releases st := by
  obtain ⟨-, evs, htr, hinc, hdec⟩ := secmark_tg_check_reject K E par st h
  exact ⟨acquires_append st _ evs htr hinc, releases_append st _ evs htr hdec⟩

/-- The result of an install step. -/
theorem step_install (s : System) (par : xt_tgchk_param) :
    step K s (Op.install E par) =
      some { st := (secmark_tg_check K E par s.st).st,
             rules := if (secmark_tg_check K E par s.st).ret = true
               then s.rules ++ [(secmark_tg_check K E par s.st).targinfo] else s.rules } := by
  unfold step
  simp only
  split_ifs <;> rfl

/-- The result of a teardown step. -/
theorem step_teardown (s s1 : System) (i : Nat) (h : step K s (Op.teardown i) = some s1) :
    ∃ info, s.rules.get? i = some info ∧
      s1 = { st := secmark_tg_destroy K { targinfo := info } s.st,
             rules := s.rules.eraseIdx i } := by
  simp only [step] at h
  cases hg : s.rules.get? i with
  | none => rw [hg] at h; exact absurd h (by simp)
  | some info =>
    rw [hg] at h
    exact ⟨info, rfl, (Option.some.inj h).symm⟩

/-- The result of a tagging step: the system is as before. -/
theorem step_tag (s s1 : System) (i : Nat) (skb : sk_buff)
    (h : step K s (Op.tag i skb) = some s1) : s1 = s := by
  simp only [step] at h
  cases hg : s.rules.get? i with
  | none => rw [hg] at h; exact absurd h (by simp)
  | some info =>
    rw [hg] at h
    simp only at h
    cases ht : secmark_tg K s.st skb { targinfo := info } with
    | none => rw [ht] at h; exact absurd h (by simp)
    | some v => rw [ht] at h; exact (Option.some.inj h).symm

/-- The initial system is consistent. -/
theorem consistent_init : Consistent K System.init := by
  unfold Consistent System.init State.init acquires releases
  simp

/-- Every operation keeps the system consistent. -/
theorem step_consistent (s s1 : System) (op : Op) (hc : Consistent K s)
    (h : step K s op = some s1) : Consistent K s1 := by
  obtain ⟨c1, c2, c3, c4, c5⟩ := hc
  cases op with
  | install E par =>
    rw [step_install] at h
    have h1 := (Option.some.inj h).symm
    by_cases hr : (secmark_tg_check K E par s.st).ret = true
    · rw [if_pos hr] at h1
      obtain ⟨hret, hsel, -, hinfo, -, hmode⟩ := secmark_tg_check_accept K E par s.st hr
      obtain ⟨hsid, -⟩ := checkentry_selinux_accept K E par.targinfo s.st hret
      have hne := ((checkentry_selinux_ret K E par.targinfo s.st).mp hret).2.1
      have him := checkentry_selinux_info_mode K E par.targinfo s.st
      obtain ⟨ha, hrl⟩ := secmark_tg_check_accept_counts K E par s.st hr
      subst h1
      refine ⟨Or.inr (hmode.trans hsel), fun _ => hmode.trans hsel, ?_, ?_, ?_⟩
      · intro h0
        simp only at h0
        omega
      · intro info hin
        simp only [List.mem_append, List.mem_singleton] at hin
        rcases hin with hin | hin
        · exact c4 info hin
        · subst hin
          rw [hinfo]
          exact ⟨him.trans hsel, by rw [hsid]; exact hne⟩
      · simp only [List.length_append, List.length_singleton]
        omega
    · have hf : (secmark_tg_check K E par s.st).ret = false := by simpa using hr
      rw [if_neg hr] at h1
      obtain ⟨hmode, -⟩ := secmark_tg_check_reject K E par s.st hf
      obtain ⟨ha, hrl⟩ := secmark_tg_check_reject_counts K E par s.st hf
      subst h1
      refine ⟨by rw [hmode]; exact c1, fun hn => by rw [hmode]; exact c2 hn, ?_, c4, ?_⟩
      · intro h0
        rw [hmode]
        exact c3 (ha ▸ h0)
      · show acquires (secmark_tg_check K E par s.st).st =
          releases (secmark_tg_check K E par s.st).st + s.rules.length
        omega
  | tag i skb =>
    rw [step_tag K s s1 i skb h]
    exact ⟨c1, c2, c3, c4, c5⟩
  | teardown i =>
    obtain ⟨info, hg, h1⟩ := step_teardown K s s1 i h
    obtain ⟨hlt, -⟩ := List.get?_eq_some.mp hg
    have hne : s.rules ≠ [] := by
      intro h0
      rw [h0] at hlt
      exact Nat.not_lt_zero _ hlt
    have hmode := secmark_tg_destroy_mode K { targinfo := info } s.st
    obtain ⟨hrl, ha⟩ := secmark_tg_destroy_counts K { targinfo := info } s.st (c2 hne)
    have hlen := List.length_eraseIdx_of_lt hlt
    subst h1
    refine ⟨by rw [hmode]; exact c1, fun _ => by rw [hmode]; exact c2 hne, ?_,
      fun x hx => c4 x (List.mem_of_mem_eraseIdx hx), ?_⟩
    · intro h0
      rw [hmode]
      exact c3 (ha ▸ h0)
    · show acquires (secmark_tg_destroy K { targinfo := info } s.st) =
        releases (secmark_tg_destroy K { targinfo := info } s.st) + (s.rules.eraseIdx i).length
      omega

/-- A run is the run of its first part followed by the run of the rest. -/
theorem run_append (s : System) (ops1 ops2 : List Op) :
    run K s (ops1 ++ ops2) = (run K s ops1).bind (fun s1 => run K s1 ops2) := by
  induction ops1 generalizing s with
  | nil => rfl
  | cons op ops ih =>
    simp only [List.cons_append, run]
    cases step K s op with
    | none => rfl
    | some s1 => exact ih s1

/-- Every run keeps the system consistent. -/
theorem run_consistent (s s1 : System) (ops : List Op) (hc : Consistent K s)
    (h : run K s ops = some s1) : Consistent K s1 := by
  induction ops generalizing s with
  | nil =>
    simp only [run] at h
    exact (Option.some.inj h) ▸ hc
  | cons op ops ih =>
    simp only [run] at h
    cases hs : step K s op with
    | none => rw [hs] at h; cases h
    | some s2 =>
      rw [hs] at h
      exact ih s2 (step_consistent K s s2 op hc hs) h

/-- What one operation does to the file-scope `mode`: nothing, unless it is an
accepted install in a state where `mode` is unset, which sets it to the rule's
mode. -/
theorem step_mode (s s1 : System) (op : Op) (h : step K s op = some s1) :
    s1.st.mode = s.st.mode ∨
      (s.st.mode = 0 ∧ ∃ E par, op = Op.install E par ∧
        (secmark_tg_check K E par s.st).ret = true ∧ s1.st.mode = par.targinfo.mode) := by
  cases op with
  | install E par =>
    rw [step_install] at h
    have h1 := (Option.some.inj h).symm
    subst h1
    simp only
    by_cases hr : (secmark_tg_check K E par s.st).ret = true
    · obtain ⟨-, -, hm, -, -, hmode⟩ := secmark_tg_check_accept K E par s.st hr
      rcases hm with h0 | h0
      · exact Or.inr ⟨h0, E, par, rfl, hr, hmode⟩
      · exact Or.inl (hmode.trans h0.symm)
    · have hf : (secmark_tg_check K E par s.st).ret = false := by simpa using hr
      exact Or.inl (secmark_tg_check_reject K E par s.st hf).1
  | tag i skb =>
    rw [step_tag K s s1 i skb h]
    exact Or.inl rfl
  | teardown i =>
    obtain ⟨info, -, h1⟩ := step_teardown K s s1 i h
    subst h1
    exact Or.inl (secmark_tg_destroy_mode K { targinfo := info } s.st)

/-- Once `mode` is set, no run changes it. -/
theorem run_mode (s s1 : System) (ops : List Op) (hset : s.st.mode ≠ 0)
    (h : run K s ops = some s1) : s1.st.mode = s.st.mode := by
  induction ops generalizing s with
  | nil =>
    simp only [run] at h
    rw [← Option.some.inj h]
  | cons op ops ih =>
    simp only [run] at h
    cases hs : step K s op with
    | none => rw [hs] at h; cases h
    | some s2 =>
      rw [hs] at h
      have h2 : s2.st.mode = s.st.mode := by
        rcases step_mode K s s2 op hs with h0 | ⟨h0, -⟩
        · exact h0
        · exact absurd h0 hset
      rw [← h2]
      exact ih s2 (by rw [h2]; exact hset) h

/-- The check `secmark_tg_check` accepts when the table is permitted, there is no
mode conflict, the mode is `SECMARK_MODE_SEL` and `checkentry_selinux` returns
true. -/
theorem secmark_tg_check_of_checkentry (par : xt_tgchk_param) (st : State)
    (ht : par.table = "mangle" ∨ par.table = "security")
    (hm : st.mode = 0 ∨ st.mode = par.targinfo.mode)
    (hsel : par.targinfo.mode = K.SECMARK_MODE_SEL)
    (hce : (checkentry_selinux K E par.targinfo st).ret = true) :
    (secmark_tg_check K E par st).ret = true := by
  have h1 : ¬(par.table ≠ "mangle" ∧ par.table ≠ "security") := by tauto
  have h2 : ¬(st.mode ≠ 0 ∧ st.mode ≠ par.targinfo.mode) := by tauto
  have h3 : ¬(checkentry_selinux K E par.targinfo st).ret = false := by simp [hce]
  unfold secmark_tg_check
  simp only
  rw [if_neg h1, if_neg h2, if_pos hsel, if_neg h3]
  split_ifs <;> rfl

end Basics

/-! ## Install -/

/-- Claim C1.  The check `secmark_tg_check` accepts a rule exactly when the table
is "mangle" or "security", the file-scope `mode` is 0 or the rule's mode, the
rule's mode is `SECMARK_MODE_SEL`, `selinux_string_to_sid` returns 0 for the
rule's context string (the buffer with its last byte forced to the terminator,
read up to the first terminator) and leaves a non-zero id, and
`selinux_secmark_relabel_packet_permission` returns 0 for that id. -/
theorem secmark_tg_check_accepts_iff (K : Consts) (E : Selinux) (par : xt_tgchk_param)
    (st : State) :
    (secmark_tg_check K E par st).ret = true ↔
      (par.table = "mangle" ∨ par.table = "security") ∧
      (st.mode = 0 ∨ st.mode = par.targinfo.mode) ∧
      par.targinfo.mode = K.SECMARK_MODE_SEL ∧
      (E.selinux_string_to_sid
        (c_str (par.targinfo.u.sel.selctx.set (K.SECMARK_SELCTX_MAX - 1) 0))).1 = 0 ∧
      (E.selinux_string_to_sid
        (c_str (par.targinfo.u.sel.selctx.set (K.SECMARK_SELCTX_MAX - 1) 0))).2 ≠ 0 ∧
      E.selinux_secmark_relabel_packet_permission
        (E.selinux_string_to_sid
          (c_str (par.targinfo.u.sel.selctx.set (K.SECMARK_SELCTX_MAX - 1) 0))).2 = 0 := by
  have hc := checkentry_selinux_ret K E par.targinfo st
  unfold secmark_tg_check
  simp only
  split_ifs with h1 h2 h3 h4 h5
  · constructor
    · intro h; cases h
    · rintro ⟨h, -⟩; tauto
  · constructor
    · intro h; cases h
    · rintro ⟨-, h, -⟩; tauto
  · constructor
    · intro h; cases h
    · rintro ⟨-, -, -, h⟩; rw [← hc, h4] at h; cases h
  · have h4t : (checkentry_selinux K E par.targinfo st).ret = true := by simpa using h4
    exact ⟨fun _ => ⟨by tauto, by tauto, h3, hc.mp h4t⟩, fun _ => rfl⟩
  · have h4t : (checkentry_selinux K E par.targinfo st).ret = true := by simpa using h4
    exact ⟨fun _ => ⟨by tauto, by tauto, h3, hc.mp h4t⟩, fun _ => rfl⟩
  · constructor
    · intro h; cases h
    · rintro ⟨-, -, h, -⟩; exact absurd h h3

/-- Claim C2.  When `secmark_tg_check` accepts a rule, the rule's `u.sel.selsid`
is the id the resolver left for the rule's context string, the calls made during
the install are the resolver, the permission check and one
`selinux_secmark_refcount_inc` (so the acquire count grew by exactly one), and
the file-scope `mode` equals the rule's mode. -/
theorem secmark_tg_check_accept_effect (K : Consts) (E : Selinux) (par : xt_tgchk_param)
    (st : State) (h : (secmark_tg_check K E par st).ret = true) :
    (secmark_tg_check K E par st).targinfo.u.sel.selsid =
        (E.selinux_string_to_sid
          (c_str (par.targinfo.u.sel.selctx.set (K.SECMARK_SELCTX_MAX - 1) 0))).2 ∧
      (secmark_tg_check K E par st).st.trace = st.trace ++
        [Event.selinux_string_to_sid
            (c_str (par.targinfo.u.sel.selctx.set (K.SECMARK_SELCTX_MAX - 1) 0)),
          Event.selinux_secmark_relabel_packet_permission
            (E.selinux_string_to_sid
              (c_str (par.targinfo.u.sel.selctx.set (K.SECMARK_SELCTX_MAX - 1) 0))).2,
          Event.selinux_secmark_refcount_inc] ∧
      acquires (secmark_tg_check K E par st).st = acquires st + 1 ∧
      (secmark_tg_check K E par st).st.mode = par.targinfo.mode := by
  obtain ⟨hret, -, -, hinfo, htrace, hmode⟩ := secmark_tg_check_accept K E par st h
  obtain ⟨hsid, htr⟩ := checkentry_selinux_accept K E par.targinfo st hret
  refine ⟨by rw [hinfo, hsid], by rw [htrace, htr], ?_, hmode⟩
  unfold acquires
  rw [htrace, htr, List.count_append]
  simp

/-- The example of claim C2: the context "system_u:object_r:httpd_t:s0", mapped to
1042 with permission granted, installed in table "security" from the initial
state, is accepted with stored id 1042. -/
theorem secmark_tg_check_accept_effect_witness :
    (secmark_tg_check linuxConsts demoSelinux
        { table := "security", targinfo := demoRule 1 "system_u:object_r:httpd_t:s0" }
        State.init).ret = true ∧
      (secmark_tg_check linuxConsts demoSelinux
        { table := "security", targinfo := demoRule 1 "system_u:object_r:httpd_t:s0" }
        State.init).targinfo.u.sel.selsid = 1042 ∧
      acquires (secmark_tg_check linuxConsts demoSelinux
        { table := "security", targinfo := demoRule 1 "system_u:object_r:httpd_t:s0" }
        State.init).st = acquires State.init + 1 ∧
      (secmark_tg_check linuxConsts demoSelinux
        { table := "security", targinfo := demoRule 1 "system_u:object_r:httpd_t:s0" }
        State.init).st.mode = 1 :=
  ⟨by decide,
    ((secmark_tg_check_accept_effect linuxConsts demoSelinux
        { table := "security", targinfo := demoRule 1 "system_u:object_r:httpd_t:s0" }
        State.init (by decide)).1).trans (by decide),
    (secmark_tg_check_accept_effect linuxConsts demoSelinux
        { table := "security", targinfo := demoRule 1 "system_u:object_r:httpd_t:s0" }
        State.init (by decide)).2.2.1,
    (secmark_tg_check_accept_effect linuxConsts demoSelinux
        { table := "security", targinfo := demoRule 1 "system_u:object_r:httpd_t:s0" }
        State.init (by decide)).2.2.2⟩

/-- Claim C3.  When `secmark_tg_check` rejects a rule the global state is as
before: the file-scope `mode` has its old value, and the calls made during the
check contain neither `selinux_secmark_refcount_inc` nor
`selinux_secmark_refcount_dec`, so both counts are unchanged. -/
theorem secmark_tg_check_reject_state (K : Consts) (E : Selinux) (par : xt_tgchk_param)
    (st : State) (h : (secmark_tg_check K E par st).ret = false) :
    (secmark_tg_check K E par st).st.mode = st.mode ∧
      (∃ evs, (secmark_tg_check K E par st).st.trace = st.trace ++ evs ∧
        Event.selinux_secmark_refcount_inc ∉ evs ∧
        Event.selinux_secmark_refcount_dec ∉ evs) ∧
      acquires (secmark_tg_check K E par st).st = acquires st ∧
      releases (secmark_tg_check K E par st).st = releases st := by
  obtain ⟨hmode, evs, htr, hinc, hdec⟩ := secmark_tg_check_reject K E par st h
  exact ⟨hmode, ⟨evs, htr, hinc, hdec⟩, acquires_append st _ evs htr hinc,
    releases_append st _ evs htr hdec⟩

/-- An instance of claim C3: a context that resolves to id 7, for which relabeling
is denied, is rejected in a state whose `mode` is already set; `mode` and the
counts stay as they were. -/
theorem secmark_tg_check_reject_state_witness :
    (secmark_tg_check linuxConsts demoSelinux
        { table := "mangle", targinfo := demoRule 1 "system_u:object_r:ssh_t:s0" }
        { mode := 1, trace := [Event.selinux_secmark_refcount_inc] }).ret = false ∧
      (secmark_tg_check linuxConsts demoSelinux
        { table := "mangle", targinfo := demoRule 1 "system_u:object_r:ssh_t:s0" }
        { mode := 1, trace := [Event.selinux_secmark_refcount_inc] }).st.mode = 1 ∧
      acquires (secmark_tg_check linuxConsts demoSelinux
        { table := "mangle", targinfo := demoRule 1 "system_u:object_r:ssh_t:s0" }
        { mode := 1, trace := [Event.selinux_secmark_refcount_inc] }).st = 1 :=
  ⟨by decide,
    (secmark_tg_check_reject_state linuxConsts demoSelinux
        { table := "mangle", targinfo := demoRule 1 "system_u:object_r:ssh_t:s0" }
        { mode := 1, trace := [Event.selinux_secmark_refcount_inc] } (by decide)).1,
    (secmark_tg_check_reject_state linuxConsts demoSelinux
        { table := "mangle", targinfo := demoRule 1 "system_u:object_r:ssh_t:s0" }
        { mode := 1, trace := [Event.selinux_secmark_refcount_inc] } (by decide)).2.2.1⟩

/-- Claim C7.  In a state whose `mode` is set, installing a rule in a permitted
table with a different mode (supported or not) returns false; the only call made
is the `printk` of the "mode already set" message, so the resolver, the
permission check and the acquire are not called; `mode` and the rule are as
before. -/
theorem secmark_tg_check_mode_conflict (K : Consts) (E : Selinux) (par : xt_tgchk_param)
    (st : State) (ht : par.table = "mangle" ∨ par.table = "security")
    (hset : st.mode ≠ 0) (hdiff : par.targinfo.mode ≠ st.mode) :
    (secmark_tg_check K E par st).ret = false ∧
      (secmark_tg_check K E par st).st.trace =
        st.trace ++ [Event.printk (Printk.mode_mix st.mode par.targinfo.mode)] ∧
      (secmark_tg_check K E par st).st.mode = st.mode ∧
      (secmark_tg_check K E par st).targinfo = par.targinfo := by
  have h1 : ¬(par.table ≠ "mangle" ∧ par.table ≠ "security") := by tauto
  have h2 : st.mode ≠ 0 ∧ st.mode ≠ par.targinfo.mode := ⟨hset, fun h => hdiff h.symm⟩
  unfold secmark_tg_check
  simp only
  rw [if_neg h1, if_pos h2]
  exact ⟨rfl, rfl, rfl, rfl⟩

/-- An instance of claim C7: with `mode` set to 1, a rule of the undefined mode 99
in table "mangle" gets the mode-conflict message, not the invalid-mode one. -/
theorem secmark_tg_check_mode_conflict_witness :
    (secmark_tg_check linuxConsts demoSelinux
        { table := "mangle", targinfo := demoRule 99 "system_u:object_r:httpd_t:s0" }
        { mode := 1, trace := [] }).ret = false ∧
      (secmark_tg_check linuxConsts demoSelinux
        { table := "mangle", targinfo := demoRule 99 "system_u:object_r:httpd_t:s0" }
        { mode := 1, trace := [] }).st.trace = [] ++ [Event.printk (Printk.mode_mix 1 99)] ∧
      (secmark_tg_check linuxConsts demoSelinux
        { table := "mangle", targinfo := demoRule 99 "system_u:object_r:httpd_t:s0" }
        { mode := 1, trace := [] }).st.mode = 1 ∧
      (secmark_tg_check linuxConsts demoSelinux
        { table := "mangle", targinfo := demoRule 99 "system_u:object_r:httpd_t:s0" }
        { mode := 1, trace := [] }).targinfo = demoRule 99 "system_u:object_r:httpd_t:s0" :=
  secmark_tg_check_mode_conflict linuxConsts demoSelinux
    { table := "mangle", targinfo := demoRule 99 "system_u:object_r:httpd_t:s0" }
    { mode := 1, trace := [] } (Or.inl rfl) (by decide) (by decide)

/-- Claim C8.  For a table name other than "mangle" and "security",
`secmark_tg_check` returns false; the only call made is the `printk` of the
"target only valid in" message, so the resolver, the permission check and the
acquire are called zero times; the rule (its context buffer included) and `mode`
are as before. -/
theorem secmark_tg_check_wrong_table (K : Consts) (E : Selinux) (par : xt_tgchk_param)
    (st : State) (h1 : par.table ≠ "mangle") (h2 : par.table ≠ "security") :
    (secmark_tg_check K E par st).ret = false ∧
      (secmark_tg_check K E par st).st.trace =
        st.trace ++ [Event.printk (Printk.wrong_table par.table)] ∧
      (secmark_tg_check K E par st).targinfo = par.targinfo ∧
      (secmark_tg_check K E par st).st.mode = st.mode := by
  unfold secmark_tg_check
  simp only
  rw [if_pos ⟨h1, h2⟩]
  exact ⟨rfl, rfl, rfl, rfl⟩

/-- Instances of claim C8: the tables "filter", "Mangle" and "" are refused, for a
rule that would be accepted in "mangle". -/
theorem secmark_tg_check_wrong_table_witness :
    ((secmark_tg_check linuxConsts demoSelinux
        { table := "filter", targinfo := demoRule 1 "system_u:object_r:httpd_t:s0" }
        State.init).ret = false ∧
      (secmark_tg_check linuxConsts demoSelinux
        { table := "filter", targinfo := demoRule 1 "system_u:object_r:httpd_t:s0" }
        State.init).st.trace = State.init.trace ++ [Event.printk (Printk.wrong_table "filter")] ∧
      (secmark_tg_check linuxConsts demoSelinux
        { table := "filter", targinfo := demoRule 1 "system_u:object_r:httpd_t:s0" }
        State.init).targinfo = demoRule 1 "system_u:object_r:httpd_t:s0" ∧
      (secmark_tg_check linuxConsts demoSelinux
        { table := "filter", targinfo := demoRule 1 "system_u:object_r:httpd_t:s0" }
        State.init).st.mode = State.init.mode) ∧
    (secmark_tg_check linuxConsts demoSelinux
        { table := "Mangle", targinfo := demoRule 1 "system_u:object_r:httpd_t:s0" }
        State.init).ret = false ∧
    (secmark_tg_check linuxConsts demoSelinux
        { table := "", targinfo := demoRule 1 "system_u:object_r:httpd_t:s0" }
        State.init).ret = false :=
  ⟨secmark_tg_check_wrong_table linuxConsts demoSelinux
      { table := "filter", targinfo := demoRule 1 "system_u:object_r:httpd_t:s0" }
      State.init (by decide) (by decide),
    (secmark_tg_check_wrong_table linuxConsts demoSelinux
      { table := "Mangle", targinfo := demoRule 1 "system_u:object_r:httpd_t:s0" }
      State.init (by decide) (by decide)).1,
    (secmark_tg_check_wrong_table linuxConsts demoSelinux
      { table := "", targinfo := demoRule 1 "system_u:object_r:httpd_t:s0" }
      State.init (by decide) (by decide)).1⟩

/-- Claim C9.  For a rule of mode `SECMARK_MODE_SEL` in a permitted table with no
mode conflict, when the resolver returns 0 with a non-zero id and the permission
check on that id returns an error, `secmark_tg_check` returns false; the calls
made are the resolver, the permission check and the `printk` of the "unable to
obtain relabeling permission" message; `selinux_secmark_refcount_inc` is not
called. -/
theorem secmark_tg_check_permission_denied (K : Consts) (E : Selinux)
    (par : xt_tgchk_param) (st : State)
    (ht : par.table = "mangle" ∨ par.table = "security")
    (hm : st.mode = 0 ∨ st.mode = par.targinfo.mode)
    (hsel : par.targinfo.mode = K.SECMARK_MODE_SEL)
    (herr : (E.selinux_string_to_sid
      (c_str (par.targinfo.u.sel.selctx.set (K.SECMARK_SELCTX_MAX - 1) 0))).1 = 0)
    (hsid : (E.selinux_string_to_sid
      (c_str (par.targinfo.u.sel.selctx.set (K.SECMARK_SELCTX_MAX - 1) 0))).2 ≠ 0)
    (hperm : E.selinux_secmark_relabel_packet_permission
      (E.selinux_string_to_sid
        (c_str (par.targinfo.u.sel.selctx.set (K.SECMARK_SELCTX_MAX - 1) 0))).2 ≠ 0) :
    (secmark_tg_check K E par st).ret = false ∧
      (secmark_tg_check K E par st).st.trace = st.trace ++
        [Event.selinux_string_to_sid
            (c_str (par.targinfo.u.sel.selctx.set (K.SECMARK_SELCTX_MAX - 1) 0)),
          Event.selinux_secmark_relabel_packet_permission
            (E.selinux_string_to_sid
              (c_str (par.targinfo.u.sel.selctx.set (K.SECMARK_SELCTX_MAX - 1) 0))).2,
          Event.printk Printk.no_relabel_permission] ∧
      acquires (secmark_tg_check K E par st).st = acquires st := by
  have h1 : ¬(par.table ≠ "mangle" ∧ par.table ≠ "security") := by tauto
  have h2 : ¬(st.mode ≠ 0 ∧ st.mode ≠ par.targinfo.mode) := by tauto
  have hc : checkentry_selinux K E par.targinfo st =
      { ret := false,
        targinfo := { mode := par.targinfo.mode, u := { sel := {
          selsid := (E.selinux_string_to_sid
            (c_str (par.targinfo.u.sel.selctx.set (K.SECMARK_SELCTX_MAX - 1) 0))).2,
          selctx := par.targinfo.u.sel.selctx.set (K.SECMARK_SELCTX_MAX - 1) 0 } } },
        st := ((st.call (Event.selinux_string_to_sid
            (c_str (par.targinfo.u.sel.selctx.set (K.SECMARK_SELCTX_MAX - 1) 0)))).call
          (Event.selinux_secmark_relabel_packet_permission
            (E.selinux_string_to_sid
              (c_str (par.targinfo.u.sel.selctx.set (K.SECMARK_SELCTX_MAX - 1) 0))).2)).call
          (Event.printk Printk.no_relabel_permission) } := by
    unfold checkentry_selinux
    simp only
    rw [if_neg (not_not.mpr herr), if_neg hsid, if_pos hperm]
  have hr : secmark_tg_check K E par st =
      { ret := false, targinfo := (checkentry_selinux K E par.targinfo st).targinfo,
        st := (checkentry_selinux K E par.targinfo st).st } := by
    unfold secmark_tg_check
    simp only
    rw [if_neg h1, if_neg h2, if_pos hsel, if_pos (by rw [hc])]
  have htr : (secmark_tg_check K E par st).st.trace = st.trace ++
        [Event.selinux_string_to_sid
            (c_str (par.targinfo.u.sel.selctx.set (K.SECMARK_SELCTX_MAX - 1) 0)),
          Event.selinux_secmark_relabel_packet_permission
            (E.selinux_string_to_sid
              (c_str (par.targinfo.u.sel.selctx.set (K.SECMARK_SELCTX_MAX - 1) 0))).2,
          Event.printk Printk.no_relabel_permission] := by
    rw [hr, hc]
    simp
  refine ⟨by rw [hr], htr, acquires_append st _ _ htr (by simp)⟩

/-- An instance of claim C9: the context that resolves to id 7, for which
relabeling is denied, installed in "security" from the initial state. -/
theorem secmark_tg_check_permission_denied_witness :
    (secmark_tg_check linuxConsts demoSelinux
        { table := "security", targinfo := demoRule 1 "system_u:object_r:ssh_t:s0" }
        State.init).ret = false ∧
      (secmark_tg_check linuxConsts demoSelinux
        { table := "security", targinfo := demoRule 1 "system_u:object_r:ssh_t:s0" }
        State.init).st.trace =
        [Event.selinux_string_to_sid (bytes "system_u:object_r:ssh_t:s0"),
          Event.selinux_secmark_relabel_packet_permission 7,
          Event.printk Printk.no_relabel_permission] ∧
      acquires (secmark_tg_check linuxConsts demoSelinux
        { table := "security", targinfo := demoRule 1 "system_u:object_r:ssh_t:s0" }
        State.init).st = acquires State.init :=
  ⟨(secmark_tg_check_permission_denied linuxConsts demoSelinux
      { table := "security", targinfo := demoRule 1 "system_u:object_r:ssh_t:s0" }
      State.init (Or.inr rfl) (Or.inl rfl) rfl (by decide) (by decide) (by decide)).1,
    by decide,
    (secmark_tg_check_permission_denied linuxConsts demoSelinux
      { table := "security", targinfo := demoRule 1 "system_u:object_r:ssh_t:s0" }
      State.init (Or.inr rfl) (Or.inl rfl) rfl (by decide) (by decide) (by decide)).2.2⟩

/-- Claim C10.  For a rule whose mode is not `SECMARK_MODE_SEL`, in a permitted
table and with the mode check passing (`mode` is 0 or equals the rule's mode),
`secmark_tg_check` returns false; the only call made is the `printk` of the
"invalid mode" message, so the resolver, the permission check and the acquire
are not called; `mode` and the rule are as before. -/
theorem secmark_tg_check_invalid_mode (K : Consts) (E : Selinux) (par : xt_tgchk_param)
    (st : State) (ht : par.table = "mangle" ∨ par.table = "security")
    (hm : st.mode = 0 ∨ st.mode = par.targinfo.mode)
    (hsel : par.targinfo.mode ≠ K.SECMARK_MODE_SEL) :
    (secmark_tg_check K E par st).ret = false ∧
      (secmark_tg_check K E par st).st.trace =
        st.trace ++ [Event.printk (Printk.invalid_mode par.targinfo.mode)] ∧
      (secmark_tg_check K E par st).st.mode = st.mode ∧
      (secmark_tg_check K E par st).targinfo = par.targinfo := by
  have h1 : ¬(par.table ≠ "mangle" ∧ par.table ≠ "security") := by tauto
  have h2 : ¬(st.mode ≠ 0 ∧ st.mode ≠ par.targinfo.mode) := by tauto
  unfold secmark_tg_check
  simp only
  rw [if_neg h1, if_neg h2, if_neg hsel]
  exact ⟨rfl, rfl, rfl, rfl⟩

/-- Instances of claim C10, with `SECMARK_MODE_SEL = 1`: the mode tags 99 and 0
from the initial state, and the tag 99 when `mode` already holds 99. -/
theorem secmark_tg_check_invalid_mode_witness :
    ((secmark_tg_check linuxConsts demoSelinux
        { table := "mangle", targinfo := demoRule 99 "system_u:object_r:httpd_t:s0" }
        State.init).ret = false ∧
      (secmark_tg_check linuxConsts demoSelinux
        { table := "mangle", targinfo := demoRule 99 "system_u:object_r:httpd_t:s0" }
        State.init).st.trace = State.init.trace ++ [Event.printk (Printk.invalid_mode 99)] ∧
      (secmark_tg_check linuxConsts demoSelinux
        { table := "mangle", targinfo := demoRule 99 "system_u:object_r:httpd_t:s0" }
        State.init).st.mode = State.init.mode ∧
      (secmark_tg_check linuxConsts demoSelinux
        { table := "mangle", targinfo := demoRule 99 "system_u:object_r:httpd_t:s0" }
        State.init).targinfo = demoRule 99 "system_u:object_r:httpd_t:s0") ∧
    (secmark_tg_check linuxConsts demoSelinux
        { table := "security", targinfo := demoRule 0 "system_u:object_r:httpd_t:s0" }
        State.init).ret = false ∧
    (secmark_tg_check linuxConsts demoSelinux
        { table := "security", targinfo := demoRule 99 "system_u:object_r:httpd_t:s0" }
        { mode := 99, trace := [] }).st.mode = 99 :=
  ⟨secmark_tg_check_invalid_mode linuxConsts demoSelinux
      { table := "mangle", targinfo := demoRule 99 "system_u:object_r:httpd_t:s0" }
      State.init (Or.inl rfl) (Or.inl rfl) (by decide),
    (secmark_tg_check_invalid_mode linuxConsts demoSelinux
      { table := "security", targinfo := demoRule 0 "system_u:object_r:httpd_t:s0" }
      State.init (Or.inr rfl) (Or.inl rfl) (by decide)).1,
    (secmark_tg_check_invalid_mode linuxConsts demoSelinux
      { table := "security", targinfo := demoRule 99 "system_u:object_r:httpd_t:s0" }
      { mode := 99, trace := [] } (Or.inr rfl) (Or.inr rfl) (by decide)).2.2.1⟩

/-! ## Tagging -/

/-- Claim C4.  For a rule whose mode equals the file-scope `mode` and is
`SECMARK_MODE_SEL`, `secmark_tg` does not stop in a BUG: it returns `XT_CONTINUE`
and leaves the packet with `secmark` equal to the rule's `u.sel.selsid`, for
every packet, whatever its `secmark` was. -/
theorem secmark_tg_sets_secmark (K : Consts) (st : State) (skb : sk_buff)
    (par : xt_target_param) (h1 : par.targinfo.mode = st.mode)
    (h2 : par.targinfo.mode = K.SECMARK_MODE_SEL) :
    ∃ skb1, secmark_tg K st skb par = some (skb1, K.XT_CONTINUE) ∧
      skb1.secmark = par.targinfo.u.sel.selsid := by
  refine ⟨{ skb with secmark := par.targinfo.u.sel.selsid }, ?_, rfl⟩
  unfold secmark_tg
  simp only
  rw [if_neg (not_not.mpr h1), if_pos (h1.symm.trans h2)]

/-- The example of claim C4: a rule with stored id 1042 sets the label of a packet
that carried 5 to 1042 and returns `XT_CONTINUE`. -/
theorem secmark_tg_sets_secmark_witness :
    ∃ skb1, secmark_tg linuxConsts { mode := 1, trace := [] } { secmark := 5, data := [69, 0] }
        { targinfo := demoActive } =
          some (skb1, 4294967295) ∧
      skb1.secmark = 1042 :=
  secmark_tg_sets_secmark linuxConsts { mode := 1, trace := [] } { secmark := 5, data := [69, 0] }
    { targinfo := demoActive } rfl rfl

/-! ## Sequences of operations -/

/-- Claim C5.  Take any sequence of installs, taggings and teardowns run from the
initial state, each teardown removing a rule that is active at that moment (a
run that gives `some`).  After every step (every prefix of the sequence) the
number of `selinux_secmark_refcount_inc` calls is the number of
`selinux_secmark_refcount_dec` calls plus the number of active rules.  From the
state reached, an accepted install adds exactly one acquire, no release and one
active rule; a teardown adds exactly one release, no acquire and removes one
active rule; and with no active rule left the two counts are equal. -/
theorem acquire_release_balance (K : Consts) (ops : List Op) (s : System)
    (h : run K System.init ops = some s) :
    (∀ n, ∃ sn, run K System.init (ops.take n) = some sn ∧
        acquires sn.st = releases sn.st + sn.rules.length) ∧
      acquires s.st = releases s.st + s.rules.length ∧
      (∀ E par s1, step K s (Op.install E par) = some s1 →
        (secmark_tg_check K E par s.st).ret = true →
          acquires s1.st = acquires s.st + 1 ∧ releases s1.st = releases s.st ∧
            s1.rules.length = s.rules.length + 1) ∧
      (∀ i s1, step K s (Op.teardown i) = some s1 →
        releases s1.st = releases s.st + 1 ∧ acquires s1.st = acquires s.st ∧
          s1.rules.length + 1 = s.rules.length) ∧
      (s.rules = [] → acquires s.st = releases s.st) := by
  have hc := run_consistent K System.init s ops (consistent_init K) h
  refine ⟨?_, hc.2.2.2.2, ?_, ?_, ?_⟩
  · intro n
    have happ := run_append K System.init (ops.take n) (ops.drop n)
    rw [List.take_append_drop, h] at happ
    cases hn : run K System.init (ops.take n) with
    | none => rw [hn] at happ; cases happ
    | some sn =>
      exact ⟨sn, rfl, (run_consistent K System.init sn (ops.take n) (consistent_init K) hn).2.2.2.2⟩
  · intro E par s1 hs hr
    rw [step_install, if_pos hr] at hs
    have h1 := (Option.some.inj hs).symm
    obtain ⟨ha, hrl⟩ := secmark_tg_check_accept_counts K E par s.st hr
    subst h1
    exact ⟨ha, hrl, by simp⟩
  · intro i s1 hs
    obtain ⟨info, hg, h1⟩ := step_teardown K s s1 i hs
    obtain ⟨hlt, -⟩ := List.get?_eq_some.mp hg
    have hne : s.rules ≠ [] := by
      intro h0
      rw [h0] at hlt
      exact Nat.not_lt_zero _ hlt
    obtain ⟨hrl, ha⟩ := secmark_tg_destroy_counts K { targinfo := info } s.st (hc.2.1 hne)
    have hlen := List.length_eraseIdx_of_lt hlt
    subst h1
    refine ⟨hrl, ha, ?_⟩
    show (s.rules.eraseIdx i).length + 1 = s.rules.length
    omega
  · intro h0
    have h5 := hc.2.2.2.2
    rw [h0] at h5
    simpa using h5

/-- An instance of claim C5: the run `demoOps` (two accepted installs, two
refused ones, two teardowns) ends with two acquires, two releases and no active
rule. -/
theorem acquire_release_balance_witness :
    run linuxConsts System.init demoOps = some demoFinal ∧
      acquires demoFinal.st = 2 ∧ releases demoFinal.st = 2 ∧ demoFinal.rules = [] ∧
      acquires demoFinal.st = releases demoFinal.st + demoFinal.rules.length :=
  ⟨by decide, by decide, by decide, by decide,
    (acquire_release_balance linuxConsts demoOps demoFinal (by decide)).2.1⟩

/-- Claim C6.  Once the file-scope `mode` is set, no sequence of installs
(accepted or refused, of any mode and context), taggings and teardowns changes
it.  One operation changes `mode` only when it is an accepted install in a state
where `mode` is unset, and then sets it to the rule's mode; from the initial
state `mode` stays unset as long as nothing was acquired.  After the register
was set in a run from the initial state, an install with that same mode in a
permitted table, whatever its context string, for which the resolver and the
permission check succeed, is accepted and leaves `mode` unchanged. -/
theorem mode_register_set_once (K : Consts) :
    (∀ s ops s1, s.st.mode ≠ 0 → run K s ops = some s1 → s1.st.mode = s.st.mode) ∧
      (∀ s op s1, step K s op = some s1 →
        s1.st.mode = s.st.mode ∨
          (s.st.mode = 0 ∧ ∃ E par, op = Op.install E par ∧
            (secmark_tg_check K E par s.st).ret = true ∧
            s1.st.mode = par.targinfo.mode)) ∧
      (∀ ops s, run K System.init ops = some s → acquires s.st = 0 → s.st.mode = 0) ∧
      (∀ ops s, run K System.init ops = some s → s.st.mode ≠ 0 →
        ∀ (E : Selinux) (par : xt_tgchk_param),
          (par.table = "mangle" ∨ par.table = "security") →
          par.targinfo.mode = s.st.mode →
          (E.selinux_string_to_sid
            (c_str (par.targinfo.u.sel.selctx.set (K.SECMARK_SELCTX_MAX - 1) 0))).1 = 0 →
          (E.selinux_string_to_sid
            (c_str (par.targinfo.u.sel.selctx.set (K.SECMARK_SELCTX_MAX - 1) 0))).2 ≠ 0 →
          E.selinux_secmark_relabel_packet_permission
            (E.selinux_string_to_sid
              (c_str (par.targinfo.u.sel.selctx.set (K.SECMARK_SELCTX_MAX - 1) 0))).2 = 0 →
          (secmark_tg_check K E par s.st).ret = true ∧
            (secmark_tg_check K E par s.st).st.mode = s.st.mode) := by
  refine ⟨fun s ops s1 hset h => run_mode K s s1 ops hset h,
    fun s op s1 h => step_mode K s s1 op h, ?_, ?_⟩
  · intro ops s h
    exact (run_consistent K System.init s ops (consistent_init K) h).2.2.1
  · intro ops s h hset E par ht hmode herr hsid hperm
    have hc := run_consistent K System.init s ops (consistent_init K) h
    have hsel : s.st.mode = K.SECMARK_MODE_SEL := by
      rcases hc.1 with h0 | h0
      · exact absurd h0 hset
      · exact h0
    have hce := (checkentry_selinux_ret K E par.targinfo s.st).mpr ⟨herr, hsid, hperm⟩
    have hr := secmark_tg_check_of_checkentry K E par s.st ht (Or.inr hmode.symm)
      (hmode.trans hsel) hce
    exact ⟨hr, (secmark_tg_check_accept K E par s.st hr).2.2.2.2.2.trans hmode⟩

/-- An instance of claim C6: after the first install of `demoOps` the register
holds 1 and still holds it at the end of the run; and in the state after the
first install, the install of a rule with the same mode and another context
string is accepted with the register unchanged. -/
theorem mode_register_set_once_witness :
    demoFirst.st.mode = 1 ∧ demoFinal.st.mode = demoFirst.st.mode ∧
      (secmark_tg_check linuxConsts openSelinux
          { table := "mangle", targinfo := demoRule 1 "system_u:object_r:ssh_t:s0" }
          demoFirst.st).ret = true ∧
      (secmark_tg_check linuxConsts openSelinux
          { table := "mangle", targinfo := demoRule 1 "system_u:object_r:ssh_t:s0" }
          demoFirst.st).st.mode = demoFirst.st.mode :=
  ⟨by decide,
    (mode_register_set_once linuxConsts).1 demoFirst (demoOps.drop 1) demoFinal
      (by decide) (by decide),
    (mode_register_set_once linuxConsts).2.2.2 (demoOps.take 1) demoFirst rfl
      (by decide) openSelinux
      { table := "mangle", targinfo := demoRule 1 "system_u:object_r:ssh_t:s0" }
      (Or.inl rfl) (by decide) (by decide) (by decide) (by decide)⟩

/-! ## Teardown and tagging of active rules -/

set_option maxRecDepth 8192

/-- In a consistent system the file-scope `mode` is `SECMARK_MODE_SEL` as soon as
a rule is active, and that rule has this mode. -/
theorem consistent_active (K : Consts) (s : System) (info : xt_secmark_target_info)
    (hc : Consistent K s) (hin : info ∈ s.rules) :
    info.mode = K.SECMARK_MODE_SEL ∧ s.st.mode = K.SECMARK_MODE_SEL ∧
      info.u.sel.selsid ≠ 0 := by
  obtain ⟨-, c2, -, c4, -⟩ := hc
  have hne : s.rules ≠ [] := by
    intro h0
    rw [h0] at hin
    cases hin
  exact ⟨(c4 info hin).1, c2 hne, (c4 info hin).2⟩

/-- The value of `secmark_tg` when neither BUG fires. -/
theorem secmark_tg_eq (K : Consts) (st : State) (skb : sk_buff) (par : xt_target_param)
    (h1 : par.targinfo.mode = st.mode) (h2 : st.mode = K.SECMARK_MODE_SEL) :
    secmark_tg K st skb par =
      some ({ secmark := par.targinfo.u.sel.selsid, data := skb.data }, K.XT_CONTINUE) := by
  unfold secmark_tg
  simp only
  rw [if_neg (not_not.mpr h1), if_pos h2]

/-- The `i`-th active rule is one of the active rules. -/
theorem mem_of_get? (rules : List xt_secmark_target_info) (i : Nat)
    (info : xt_secmark_target_info) (hg : rules.get? i = some info) : info ∈ rules := by
  obtain ⟨hlt, heq⟩ := List.get?_eq_some.mp hg
  rw [← heq]
  exact List.get_mem rules i hlt

/-- Claim C11.  In every state reached from the initial state, for every active
rule (it was accepted with mode `SECMARK_MODE_SEL`), `secmark_tg_destroy` makes
exactly one call, `selinux_secmark_refcount_dec`, and leaves the file-scope
`mode` as it was.  The function returns nothing but the new global state: it has
no failure outcome and writes no rule; the teardown step succeeds and the other
active rules are as before. -/
theorem secmark_tg_destroy_active (K : Consts) (ops : List Op) (s : System) (i : Nat)
    (info : xt_secmark_target_info) (h : run K System.init ops = some s)
    (hg : s.rules.get? i = some info) :
    info.mode = K.SECMARK_MODE_SEL ∧
      (secmark_tg_destroy K { targinfo := info } s.st).trace =
        s.st.trace ++ [Event.selinux_secmark_refcount_dec] ∧
      releases (secmark_tg_destroy K { targinfo := info } s.st) = releases s.st + 1 ∧
      acquires (secmark_tg_destroy K { targinfo := info } s.st) = acquires s.st ∧
      (secmark_tg_destroy K { targinfo := info } s.st).mode = s.st.mode ∧
      step K s (Op.teardown i) =
        some { st := secmark_tg_destroy K { targinfo := info } s.st,
               rules := s.rules.eraseIdx i } := by
  have hc := run_consistent K System.init s ops (consistent_init K) h
  obtain ⟨hi, hm, -⟩ := consistent_active K s info hc (mem_of_get? s.rules i info hg)
  obtain ⟨hrl, ha⟩ := secmark_tg_destroy_counts K { targinfo := info } s.st hm
  refine ⟨hi, ?_, hrl, ha, secmark_tg_destroy_mode K { targinfo := info } s.st, ?_⟩
  · unfold secmark_tg_destroy
    rw [if_pos hm]
    rfl
  · simp only [step]
    rw [hg]

/-- An instance of claim C11: the rule accepted by the first install of `demoOps`
is torn down with one release, `mode` staying 1. -/
theorem secmark_tg_destroy_active_witness :
    demoFirst.rules.get? 0 = some demoActive ∧
      (secmark_tg_destroy linuxConsts { targinfo := demoActive } demoFirst.st).trace =
        demoFirst.st.trace ++ [Event.selinux_secmark_refcount_dec] ∧
      (secmark_tg_destroy linuxConsts { targinfo := demoActive } demoFirst.st).mode = 1 :=
  ⟨rfl,
    (secmark_tg_destroy_active linuxConsts (demoOps.take 1) demoFirst 0 demoActive
      rfl rfl).2.1,
    ((secmark_tg_destroy_active linuxConsts (demoOps.take 1) demoFirst 0 demoActive
      rfl rfl).2.2.2.2.1).trans (by decide)⟩

/-- Claim C12.  In every state reached from the initial state, `secmark_tg` on an
active rule changes nothing but the `secmark` field of the packet: the packet
keeps its `data`, gets the rule's `u.sel.selsid` as `secmark`, and the verdict is
`XT_CONTINUE`; the tagging step leaves the whole system (every rule
configuration, the file-scope `mode`, the calls made, hence the reference count)
as it was, so any number of packets through the same rule get the same id. -/
theorem secmark_tg_frame (K : Consts) (ops : List Op) (s : System) (i : Nat)
    (info : xt_secmark_target_info) (h : run K System.init ops = some s)
    (hg : s.rules.get? i = some info) :
    (∀ skb, secmark_tg K s.st skb { targinfo := info } =
        some ({ secmark := info.u.sel.selsid, data := skb.data }, K.XT_CONTINUE)) ∧
      (∀ skb, step K s (Op.tag i skb) = some s) ∧
      (∀ skbs : List sk_buff, run K s (skbs.map (Op.tag i)) = some s) := by
  have hc := run_consistent K System.init s ops (consistent_init K) h
  obtain ⟨hi, hm, -⟩ := consistent_active K s info hc (mem_of_get? s.rules i info hg)
  have htg : ∀ skb, secmark_tg K s.st skb { targinfo := info } =
      some ({ secmark := info.u.sel.selsid, data := skb.data }, K.XT_CONTINUE) :=
    fun skb => secmark_tg_eq K s.st skb { targinfo := info } (hi.trans hm.symm) hm
  have hstep : ∀ skb, step K s (Op.tag i skb) = some s := by
    intro skb
    simp only [step]
    rw [hg]
    simp only
    rw [htg skb]
  refine ⟨htg, hstep, ?_⟩
  intro skbs
  induction skbs with
  | nil => rfl
  | cons skb rest ih =>
    simp only [List.map_cons, run]
    rw [hstep skb]
    exact ih

/-- An instance of claim C12: three packets with different labels and payloads
through the rule accepted by the first install of `demoOps`; each gets 1042 and
the system is as before. -/
theorem secmark_tg_frame_witness :
    (∀ skb, secmark_tg linuxConsts demoFirst.st skb { targinfo := demoActive } =
        some ({ secmark := 1042, data := skb.data }, 4294967295)) ∧
      run linuxConsts demoFirst
        ([{ secmark := 0, data := [1] }, { secmark := 5, data := [] },
          { secmark := 1042, data := [2, 3] }].map (Op.tag 0)) = some demoFirst :=
  ⟨(secmark_tg_frame linuxConsts (demoOps.take 1) demoFirst 0 demoActive rfl rfl).1,
    (secmark_tg_frame linuxConsts (demoOps.take 1) demoFirst 0 demoActive rfl rfl).2.2
      [{ secmark := 0, data := [1] }, { secmark := 5, data := [] },
        { secmark := 1042, data := [2, 3] }]⟩

/-- Claim C15.  In every state reached from the initial state by installs,
teardowns (and taggings), every active rule has its mode equal to the file-scope
`mode`, and that mode is `SECMARK_MODE_SEL`; so `secmark_tg` on such a rule,
for any packet, reaches neither `BUG_ON(info->mode != mode)` nor the `BUG()` of
the default case. -/
theorem secmark_tg_no_bug (K : Consts) (ops : List Op) (s : System)
    (info : xt_secmark_target_info) (h : run K System.init ops = some s)
    (hin : info ∈ s.rules) :
    info.mode = s.st.mode ∧ s.st.mode = K.SECMARK_MODE_SEL ∧
      ∀ skb, secmark_tg K s.st skb { targinfo := info } ≠ none := by
  have hc := run_consistent K System.init s ops (consistent_init K) h
  obtain ⟨hi, hm, -⟩ := consistent_active K s info hc hin
  refine ⟨hi.trans hm.symm, hm, ?_⟩
  intro skb
  rw [secmark_tg_eq K s.st skb { targinfo := info } (hi.trans hm.symm) hm]
  exact Option.some_ne_none _

/-- An instance of claim C15: the rule accepted by the first install of `demoOps`
has the mode of the register, 1, and a packet through it meets no BUG. -/
theorem secmark_tg_no_bug_witness :
    demoActive ∈ demoFirst.rules ∧ demoActive.mode = demoFirst.st.mode ∧
      demoFirst.st.mode = 1 ∧
      secmark_tg linuxConsts demoFirst.st { secmark := 5, data := [69, 0] }
        { targinfo := demoActive } ≠ none :=
  ⟨mem_of_get? demoFirst.rules 0 demoActive rfl,
    (secmark_tg_no_bug linuxConsts (demoOps.take 1) demoFirst demoActive rfl
      (mem_of_get? demoFirst.rules 0 demoActive rfl)).1,
    (secmark_tg_no_bug linuxConsts (demoOps.take 1) demoFirst demoActive rfl
      (mem_of_get? demoFirst.rules 0 demoActive rfl)).2.1,
    (secmark_tg_no_bug linuxConsts (demoOps.take 1) demoFirst demoActive rfl
      (mem_of_get? demoFirst.rules 0 demoActive rfl)).2.2 { secmark := 5, data := [69, 0] }⟩

/-- Claim C18.  When the resolver returns 0 and leaves the id 0,
`checkentry_selinux` returns false after two calls, the resolver and the `printk`
of the "unable to map" message: neither the permission check nor the acquire is
called.  So every rule accepted by `secmark_tg_check` stores a non-zero id, every
active rule in a state reached from the initial state has a non-zero id, and
`secmark_tg` through such a rule leaves a non-zero `secmark` on the packet. -/
theorem zero_sid_is_unmappable (K : Consts) :
    (∀ (E : Selinux) (info : xt_secmark_target_info) (st : State),
        (E.selinux_string_to_sid
          (c_str (info.u.sel.selctx.set (K.SECMARK_SELCTX_MAX - 1) 0))).1 = 0 →
        (E.selinux_string_to_sid
          (c_str (info.u.sel.selctx.set (K.SECMARK_SELCTX_MAX - 1) 0))).2 = 0 →
        (checkentry_selinux K E info st).ret = false ∧
          (checkentry_selinux K E info st).st.trace = st.trace ++
            [Event.selinux_string_to_sid
                (c_str (info.u.sel.selctx.set (K.SECMARK_SELCTX_MAX - 1) 0)),
              Event.printk (Printk.unable_to_map
                (c_str (info.u.sel.selctx.set (K.SECMARK_SELCTX_MAX - 1) 0)))]) ∧
      (∀ (E : Selinux) (par : xt_tgchk_param) (st : State),
        (secmark_tg_check K E par st).ret = true →
          (secmark_tg_check K E par st).targinfo.u.sel.selsid ≠ 0) ∧
      (∀ (ops : List Op) (s : System) (info : xt_secmark_target_info),
        run K System.init ops = some s → info ∈ s.rules →
          info.u.sel.selsid ≠ 0 ∧
            ∀ skb, ∃ skb1, secmark_tg K s.st skb { targinfo := info } =
              some (skb1, K.XT_CONTINUE) ∧ skb1.secmark ≠ 0) := by
  refine ⟨?_, ?_, ?_⟩
  · intro E info st herr hsid
    unfold checkentry_selinux
    simp only
    rw [if_neg (not_not.mpr herr), if_pos hsid]
    exact ⟨rfl, by simp⟩
  · intro E par st hr
    obtain ⟨hret, -, -, hinfo, -, -⟩ := secmark_tg_check_accept K E par st hr
    obtain ⟨hsid, -⟩ := checkentry_selinux_accept K E par.targinfo st hret
    rw [hinfo, hsid]
    exact ((checkentry_selinux_ret K E par.targinfo st).mp hret).2.1
  · intro ops s info h hin
    have hc := run_consistent K System.init s ops (consistent_init K) h
    obtain ⟨hi, hm, hsid⟩ := consistent_active K s info hc hin
    refine ⟨hsid, fun skb => ⟨{ secmark := info.u.sel.selsid, data := skb.data }, ?_, hsid⟩⟩
    exact secmark_tg_eq K s.st skb { targinfo := info } (hi.trans hm.symm) hm

/-- An instance of claim C18: an SELinux that answers 0 with id 0 for every string
(as a disabled SELinux does) has the rule refused with the "unable to map"
message, and no permission check. -/
theorem zero_sid_is_unmappable_witness :
    (checkentry_selinux linuxConsts
        { selinux_string_to_sid := fun _ => (0, 0),
          selinux_secmark_relabel_packet_permission := fun _ => 0 }
        (demoRule 1 "system_u:object_r:httpd_t:s0") State.init).ret = false ∧
      (checkentry_selinux linuxConsts
        { selinux_string_to_sid := fun _ => (0, 0),
          selinux_secmark_relabel_packet_permission := fun _ => 0 }
        (demoRule 1 "system_u:object_r:httpd_t:s0") State.init).st.trace =
        State.init.trace ++
          [Event.selinux_string_to_sid (c_str (List.set
              (demoRule 1 "system_u:object_r:httpd_t:s0").u.sel.selctx
              (linuxConsts.SECMARK_SELCTX_MAX - 1) 0)),
            Event.printk (Printk.unable_to_map (c_str (List.set
              (demoRule 1 "system_u:object_r:httpd_t:s0").u.sel.selctx
              (linuxConsts.SECMARK_SELCTX_MAX - 1) 0)))] :=
  (zero_sid_is_unmappable linuxConsts).1
    { selinux_string_to_sid := fun _ => (0, 0),
      selinux_secmark_relabel_packet_permission := fun _ => 0 }
    (demoRule 1 "system_u:object_r:httpd_t:s0") State.init rfl rfl

/-- Claim C19.  The function `secmark_tg_destroy` does not read the rule: for
every global state its result is the same for any two rule configurations.  It
calls `selinux_secmark_refcount_dec` (once) exactly when the file-scope `mode`
equals `SECMARK_MODE_SEL`.  As `SECMARK_MODE_SEL` is not 0, with the register
unset it makes no call at all, also for a rule whose stored mode is
`SECMARK_MODE_SEL`. -/
theorem secmark_tg_destroy_ignores_rule (K : Consts) (hsel : K.SECMARK_MODE_SEL ≠ 0) :
    (∀ (par1 par2 : xt_tgdtor_param) (st : State),
        secmark_tg_destroy K par1 st = secmark_tg_destroy K par2 st) ∧
      (∀ (par : xt_tgdtor_param) (st : State),
        (st.mode = K.SECMARK_MODE_SEL →
          (secmark_tg_destroy K par st).trace =
            st.trace ++ [Event.selinux_secmark_refcount_dec]) ∧
        (st.mode ≠ K.SECMARK_MODE_SEL → secmark_tg_destroy K par st = st) ∧
        (releases (secmark_tg_destroy K par st) = releases st + 1 ↔
          st.mode = K.SECMARK_MODE_SEL)) ∧
      (∀ (par : xt_tgdtor_param) (st : State),
        st.mode = 0 → par.targinfo.mode = K.SECMARK_MODE_SEL →
          secmark_tg_destroy K par st = st ∧
            releases (secmark_tg_destroy K par st) = releases st) := by
  have hne : ∀ (par : xt_tgdtor_param) (st : State), st.mode ≠ K.SECMARK_MODE_SEL →
      secmark_tg_destroy K par st = st := by
    intro par st h
    unfold secmark_tg_destroy
    rw [if_neg h]
  refine ⟨fun par1 par2 st => rfl, ?_, ?_⟩
  · intro par st
    refine ⟨?_, hne par st, ?_⟩
    · intro h
      unfold secmark_tg_destroy
      rw [if_pos h]
      rfl
    · constructor
      · intro h
        by_contra hn
        rw [hne par st hn] at h
        omega
      · intro h
        exact (secmark_tg_destroy_counts K par st h).1
  · intro par st h0 _
    have hn : st.mode ≠ K.SECMARK_MODE_SEL := by
      rw [h0]
      exact fun h => hsel h.symm
    rw [hne par st hn]
    exact ⟨rfl, rfl⟩

/-- An instance of claim C19, with `SECMARK_MODE_SEL = 1`: in the initial state
the teardown of a rule of mode 1 makes no call, and two different rules give the
same result in a state with `mode` 1. -/
theorem secmark_tg_destroy_ignores_rule_witness :
    secmark_tg_destroy linuxConsts { targinfo := demoActive } State.init = State.init ∧
      secmark_tg_destroy linuxConsts { targinfo := demoActive } { mode := 1, trace := [] } =
        secmark_tg_destroy linuxConsts { targinfo := demoRule 99 "" }
          { mode := 1, trace := [] } :=
  ⟨((secmark_tg_destroy_ignores_rule linuxConsts (by decide)).2.2
      { targinfo := demoActive } State.init rfl rfl).1,
    (secmark_tg_destroy_ignores_rule linuxConsts (by decide)).1
      { targinfo := demoActive } { targinfo := demoRule 99 "" } { mode := 1, trace := [] }⟩

/-! ## The context string -/

/-- Forcing the last byte of a full buffer to the terminator keeps the bytes
before it. -/
theorem set_last_eq (buf : List Nat) (n : Nat) (hpos : 0 < n) (hlen : buf.length = n) :
    buf.set (n - 1) 0 = buf.take (n - 1) ++ [0] := by
  have hlt : n - 1 < buf.length := by omega
  rw [List.set_eq_take_append_cons_drop, if_pos hlt]
  have hd : buf.drop (n - 1 + 1) = [] := List.drop_eq_nil_of_le (by omega)
  rw [hd]

/-- A terminator at the end of a buffer ends the C string there at the latest. -/
theorem c_str_append_zero (l : List Nat) : c_str (l ++ [0]) = c_str l := by
  unfold c_str
  induction l with
  | nil => rfl
  | cons a l ih =>
    simp only [List.cons_append, List.takeWhile_cons]
    split_ifs
    · rw [ih]
    · rfl

/-- What follows a terminator is not part of the C string. -/
theorem c_str_append_of_mem (a b : List Nat) (h : 0 ∈ a) : c_str (a ++ b) = c_str a := by
  unfold c_str
  induction a with
  | nil => cases h
  | cons x a ih =>
    simp only [List.cons_append, List.takeWhile_cons]
    by_cases hx : x = 0
    · subst hx
      rfl
    · have hin : 0 ∈ a := by
        rcases List.mem_cons.mp h with h0 | h0
        · exact absurd h0.symm hx
        · exact h0
      have hb : (x != 0) = true := by simpa using hx
      rw [if_pos hb, if_pos hb, ih hin]

/-- In a buffer that holds a terminator the C string is followed by one. -/
theorem c_str_terminated (l : List Nat) (h : 0 ∈ l) : c_str l ++ [0] <+: l := by
  unfold c_str
  induction l with
  | nil => cases h
  | cons x l ih =>
    by_cases hx : x = 0
    · subst hx
      exact ⟨l, rfl⟩
    · have hin : 0 ∈ l := by
        rcases List.mem_cons.mp h with h0 | h0
        · exact absurd h0.symm hx
        · exact h0
      have hb : (x != 0) = true := by simpa using hx
      rw [List.takeWhile_cons, if_pos hb]
      obtain ⟨t, ht⟩ := ih hin
      exact ⟨t, by rw [List.cons_append, List.cons_append, ht]⟩

/-- A C string contains no terminator. -/
theorem zero_not_mem_c_str (l : List Nat) : 0 ∉ c_str l := by
  intro h
  have hp := List.mem_takeWhile_imp h
  simp at hp

/-- A buffer without terminator is its own C string. -/
theorem c_str_of_not_mem (l : List Nat) (h : 0 ∉ l) : c_str l = l := by
  unfold c_str
  rw [List.takeWhile_eq_self_iff]
  intro x hx
  have hne : x ≠ 0 := fun h0 => h (h0 ▸ hx)
  simpa using hne

/-- The first call of `checkentry_selinux` is the resolver, on the C string of the
buffer with its last byte forced to the terminator; the id it leaves goes to the
rule, and the buffer is left with the forced terminator. -/
theorem checkentry_selinux_first_call (K : Consts) (E : Selinux)
    (info : xt_secmark_target_info) (st : State) :
    (∃ tail, (checkentry_selinux K E info st).st.trace = st.trace ++
        Event.selinux_string_to_sid
          (c_str (info.u.sel.selctx.set (K.SECMARK_SELCTX_MAX - 1) 0)) :: tail) ∧
      (checkentry_selinux K E info st).targinfo =
        { mode := info.mode,
          u := { sel := {
            selsid := (E.selinux_string_to_sid
              (c_str (info.u.sel.selctx.set (K.SECMARK_SELCTX_MAX - 1) 0))).2,
            selctx := info.u.sel.selctx.set (K.SECMARK_SELCTX_MAX - 1) 0 } } } := by
  unfold checkentry_selinux
  simp only
  generalize c_str (info.u.sel.selctx.set (K.SECMARK_SELCTX_MAX - 1) 0) = str
  generalize E.selinux_string_to_sid str = r
  split_ifs with h1 h2 h3 h4
  · exact ⟨⟨[Event.printk (Printk.invalid_context str)], by simp⟩, rfl⟩
  · exact ⟨⟨[], by simp⟩, rfl⟩
  · exact ⟨⟨[Event.printk (Printk.unable_to_map str)], by simp⟩, rfl⟩
  · exact ⟨⟨[Event.selinux_secmark_relabel_packet_permission r.2,
      Event.printk Printk.no_relabel_permission], by simp⟩, rfl⟩
  · exact ⟨⟨[Event.selinux_secmark_relabel_packet_permission r.2,
      Event.selinux_secmark_refcount_inc], by simp⟩, rfl⟩

/-- Claim C16.  For a rule whose buffer has `SECMARK_SELCTX_MAX` bytes, the first
call of `checkentry_selinux` is the resolver, on the C string of the buffer with
its last byte forced to the terminator.  That string is a prefix of the rule's
buffer, holds no terminator, is followed by a terminator in the forced buffer,
and has at most `SECMARK_SELCTX_MAX - 1` bytes.  For a buffer without terminator
it is the first `SECMARK_SELCTX_MAX - 1` bytes; for a buffer with a terminator
before the last byte it is the C string of the buffer as supplied. -/
theorem checkentry_selinux_string (K : Consts) (E : Selinux)
    (info : xt_secmark_target_info) (st : State) (hpos : 0 < K.SECMARK_SELCTX_MAX)
    (hlen : info.u.sel.selctx.length = K.SECMARK_SELCTX_MAX) :
    (∃ tail, (checkentry_selinux K E info st).st.trace = st.trace ++
        Event.selinux_string_to_sid
          (c_str (info.u.sel.selctx.set (K.SECMARK_SELCTX_MAX - 1) 0)) :: tail) ∧
      (info.u.sel.selctx.set (K.SECMARK_SELCTX_MAX - 1) 0).get?
        (K.SECMARK_SELCTX_MAX - 1) = some 0 ∧
      c_str (info.u.sel.selctx.set (K.SECMARK_SELCTX_MAX - 1) 0) <+: info.u.sel.selctx ∧
      0 ∉ c_str (info.u.sel.selctx.set (K.SECMARK_SELCTX_MAX - 1) 0) ∧
      c_str (info.u.sel.selctx.set (K.SECMARK_SELCTX_MAX - 1) 0) ++ [0] <+:
        info.u.sel.selctx.set (K.SECMARK_SELCTX_MAX - 1) 0 ∧
      (c_str (info.u.sel.selctx.set (K.SECMARK_SELCTX_MAX - 1) 0)).length ≤
        K.SECMARK_SELCTX_MAX - 1 ∧
      (0 ∉ info.u.sel.selctx →
        c_str (info.u.sel.selctx.set (K.SECMARK_SELCTX_MAX - 1) 0) =
          info.u.sel.selctx.take (K.SECMARK_SELCTX_MAX - 1)) ∧
      (0 ∈ info.u.sel.selctx.take (K.SECMARK_SELCTX_MAX - 1) →
        c_str (info.u.sel.selctx.set (K.SECMARK_SELCTX_MAX - 1) 0) =
          c_str info.u.sel.selctx) := by
  have hset := set_last_eq info.u.sel.selctx K.SECMARK_SELCTX_MAX hpos hlen
  have hstr : c_str (info.u.sel.selctx.set (K.SECMARK_SELCTX_MAX - 1) 0) =
      c_str (info.u.sel.selctx.take (K.SECMARK_SELCTX_MAX - 1)) := by
    rw [hset, c_str_append_zero]
  have hpre : c_str (info.u.sel.selctx.take (K.SECMARK_SELCTX_MAX - 1)) <+:
      info.u.sel.selctx.take (K.SECMARK_SELCTX_MAX - 1) := List.takeWhile_prefix _
  refine ⟨(checkentry_selinux_first_call K E info st).1, ?_, ?_, zero_not_mem_c_str _,
    ?_, ?_, ?_, ?_⟩
  · rw [List.get?_eq_getElem?, List.getElem?_set_self (by omega)]
  · rw [hstr]
    exact hpre.trans (List.take_prefix _ _)
  · apply c_str_terminated
    rw [hset]
    simp
  · rw [hstr]
    exact hpre.length_le.trans (List.length_take_le _ _)
  · intro h0
    rw [hstr]
    exact c_str_of_not_mem _ (fun h => h0 (List.mem_of_mem_take h))
  · intro h0
    rw [hstr]
    have := c_str_append_of_mem (info.u.sel.selctx.take (K.SECMARK_SELCTX_MAX - 1))
      (info.u.sel.selctx.drop (K.SECMARK_SELCTX_MAX - 1)) h0
    rw [List.take_append_drop] at this
    exact this.symm

/-- Instances of claim C16, with `SECMARK_SELCTX_MAX = 256`: a buffer of 256 bytes
'A' without terminator is resolved as its first 255 bytes, and the buffer that
holds "system_u:object_r:httpd_t:s0" is resolved as that string. -/
theorem checkentry_selinux_string_witness :
    c_str (fullRule.u.sel.selctx.set (linuxConsts.SECMARK_SELCTX_MAX - 1) 0) =
        List.replicate 255 65 ∧
      c_str ((demoRule 1 "system_u:object_r:httpd_t:s0").u.sel.selctx.set
          (linuxConsts.SECMARK_SELCTX_MAX - 1) 0) =
        bytes "system_u:object_r:httpd_t:s0" :=
  ⟨((checkentry_selinux_string linuxConsts demoSelinux fullRule State.init
      (by decide) rfl).2.2.2.2.2.2.1 (by decide)).trans (by decide),
    ((checkentry_selinux_string linuxConsts demoSelinux
      (demoRule 1 "system_u:object_r:httpd_t:s0") State.init
      (by decide) rfl).2.2.2.2.2.2.2 (by decide)).trans (by decide)⟩

/-! ## The id field on input and on failure -/

/-- Claim C14.  For two rule configurations that differ only in `u.sel.selsid`
(same table, same mode, same context buffer), run from the same global state
with the same SELinux answers, `secmark_tg_check` returns the same value and
leaves the same global state; when it accepts, the two rules are left equal,
with the id the resolver left for the context string. -/
theorem secmark_tg_check_ignores_selsid (K : Consts) (E : Selinux)
    (par1 par2 : xt_tgchk_param) (st : State) (ht : par1.table = par2.table)
    (hm : par1.targinfo.mode = par2.targinfo.mode)
    (hctx : par1.targinfo.u.sel.selctx = par2.targinfo.u.sel.selctx) :
    (secmark_tg_check K E par1 st).ret = (secmark_tg_check K E par2 st).ret ∧
      (secmark_tg_check K E par1 st).st = (secmark_tg_check K E par2 st).st ∧
      ((secmark_tg_check K E par1 st).ret = true →
        (secmark_tg_check K E par1 st).targinfo = (secmark_tg_check K E par2 st).targinfo ∧
        (secmark_tg_check K E par1 st).targinfo.u.sel.selsid =
          (E.selinux_string_to_sid
            (c_str (par1.targinfo.u.sel.selctx.set (K.SECMARK_SELCTX_MAX - 1) 0))).2) := by
  have hce : checkentry_selinux K E par1.targinfo st =
      checkentry_selinux K E par2.targinfo st := by
    unfold checkentry_selinux
    simp only
    rw [hm, hctx]
  have hsid : (checkentry_selinux K E par1.targinfo st).targinfo.u.sel.selsid =
      (E.selinux_string_to_sid
        (c_str (par1.targinfo.u.sel.selctx.set (K.SECMARK_SELCTX_MAX - 1) 0))).2 := by
    rw [(checkentry_selinux_first_call K E par1.targinfo st).2]
  unfold secmark_tg_check
  simp only
  rw [← hce, ← ht, ← hm]
  split_ifs with h1 h2 h3 h4 h5
  · exact ⟨rfl, rfl, fun h => by cases h⟩
  · exact ⟨rfl, rfl, fun h => by cases h⟩
  · exact ⟨rfl, rfl, fun h => by cases h⟩
  · exact ⟨rfl, rfl, fun _ => ⟨rfl, hsid⟩⟩
  · exact ⟨rfl, rfl, fun _ => ⟨rfl, hsid⟩⟩
  · exact ⟨rfl, rfl, fun h => by cases h⟩

/-- An instance of claim C14: the same context with the id field 0 and with the id
field 5 on input; both installs are accepted and leave equal rules, id 1042. -/
theorem secmark_tg_check_ignores_selsid_witness :
    (secmark_tg_check linuxConsts demoSelinux
        { table := "mangle", targinfo := demoRule 1 "system_u:object_r:httpd_t:s0" }
        State.init).ret = true ∧
      (secmark_tg_check linuxConsts demoSelinux
        { table := "mangle", targinfo := demoRule 1 "system_u:object_r:httpd_t:s0" }
        State.init).targinfo =
      (secmark_tg_check linuxConsts demoSelinux
        { table := "mangle", targinfo := staleRule } State.init).targinfo :=
  ⟨by decide,
    ((secmark_tg_check_ignores_selsid linuxConsts demoSelinux
      { table := "mangle", targinfo := demoRule 1 "system_u:object_r:httpd_t:s0" }
      { table := "mangle", targinfo := staleRule } State.init rfl rfl rfl).2.2 (by decide)).1⟩

/-- Claim C13 does not hold as stated: the context "system_u:object_r:ssh_t:s0"
resolves to id 7, relabeling to 7 is denied, the install is rejected, and the
id field of the rule, 0 on input, holds 7 afterwards. -/
theorem secmark_tg_check_reject_writes_selsid :
    (secmark_tg_check linuxConsts demoSelinux
        { table := "security", targinfo := demoRule 1 "system_u:object_r:ssh_t:s0" }
        State.init).ret = false ∧
      (demoRule 1 "system_u:object_r:ssh_t:s0").u.sel.selsid = 0 ∧
      (secmark_tg_check linuxConsts demoSelinux
        { table := "security", targinfo := demoRule 1 "system_u:object_r:ssh_t:s0" }
        State.init).targinfo.u.sel.selsid = 7 :=
  ⟨by decide, rfl, by decide⟩

/-- Claim C13, amended.  When `secmark_tg_check` rejects a rule, either it did so
before the resolver was called (table not permitted, mode conflict, or a mode
other than `SECMARK_MODE_SEL`) and the rule configuration is as on input; or the
rule went through `checkentry_selinux`, which failed, and `u.sel.selsid` holds
the value the resolver left in it (the resolved id when the permission check is
what failed). -/
theorem secmark_tg_check_reject_rule (K : Consts) (E : Selinux) (par : xt_tgchk_param)
    (st : State) (h : (secmark_tg_check K E par st).ret = false) :
    (((par.table ≠ "mangle" ∧ par.table ≠ "security") ∨
        (st.mode ≠ 0 ∧ st.mode ≠ par.targinfo.mode) ∨
        par.targinfo.mode ≠ K.SECMARK_MODE_SEL) ∧
      (secmark_tg_check K E par st).targinfo = par.targinfo) ∨
    ((par.table = "mangle" ∨ par.table = "security") ∧
      (st.mode = 0 ∨ st.mode = par.targinfo.mode) ∧
      par.targinfo.mode = K.SECMARK_MODE_SEL ∧
      (checkentry_selinux K E par.targinfo st).ret = false ∧
      (secmark_tg_check K E par st).targinfo.u.sel.selsid =
        (E.selinux_string_to_sid
          (c_str (par.targinfo.u.sel.selctx.set (K.SECMARK_SELCTX_MAX - 1) 0))).2) := by
  have hfc := (checkentry_selinux_first_call K E par.targinfo st).2
  revert h
  unfold secmark_tg_check
  simp only
  split_ifs with h1 h2 h3 h4 h5
  · intro _; exact Or.inl ⟨Or.inl h1, rfl⟩
  · intro _; exact Or.inl ⟨Or.inr (Or.inl h2), rfl⟩
  · intro _
    refine Or.inr ⟨by tauto, by tauto, h3, h4, ?_⟩
    show (checkentry_selinux K E par.targinfo st).targinfo.u.sel.selsid = _
    rw [hfc]
  · intro h; cases h
  · intro h; cases h
  · intro _; exact Or.inl ⟨Or.inr (Or.inr h3), rfl⟩

/-- An instance of the amended claim C13: the rejected install of the context that
resolves to 7 went through `checkentry_selinux` and left 7 in the id field. -/
theorem secmark_tg_check_reject_rule_witness :
    (secmark_tg_check linuxConsts demoSelinux
        { table := "security", targinfo := demoRule 1 "system_u:object_r:ssh_t:s0" }
        State.init).ret = false ∧
      ((((("security" : String) ≠ "mangle" ∧ ("security" : String) ≠ "security") ∨
          (State.init.mode ≠ 0 ∧
            State.init.mode ≠ (demoRule 1 "system_u:object_r:ssh_t:s0").mode) ∨
          (demoRule 1 "system_u:object_r:ssh_t:s0").mode ≠ linuxConsts.SECMARK_MODE_SEL) ∧
        (secmark_tg_check linuxConsts demoSelinux
          { table := "security", targinfo := demoRule 1 "system_u:object_r:ssh_t:s0" }
          State.init).targinfo = demoRule 1 "system_u:object_r:ssh_t:s0") ∨
      (((("security" : String) = "mangle" ∨ ("security" : String) = "security")) ∧
        (State.init.mode = 0 ∨
          State.init.mode = (demoRule 1 "system_u:object_r:ssh_t:s0").mode) ∧
        (demoRule 1 "system_u:object_r:ssh_t:s0").mode = linuxConsts.SECMARK_MODE_SEL ∧
        (checkentry_selinux linuxConsts demoSelinux
          (demoRule 1 "system_u:object_r:ssh_t:s0") State.init).ret = false ∧
        (secmark_tg_check linuxConsts demoSelinux
          { table := "security", targinfo := demoRule 1 "system_u:object_r:ssh_t:s0" }
          State.init).targinfo.u.sel.selsid =
          (demoSelinux.selinux_string_to_sid
            (c_str (List.set (demoRule 1 "system_u:object_r:ssh_t:s0").u.sel.selctx
              (linuxConsts.SECMARK_SELCTX_MAX - 1) 0))).2)) :=
  ⟨by decide,
    secmark_tg_check_reject_rule linuxConsts demoSelinux
      { table := "security", targinfo := demoRule 1 "system_u:object_r:ssh_t:s0" }
      State.init (by decide)⟩

/-! ## Diagnostics -/

/-- The calls of a failing `checkentry_selinux`, by the answer of the resolver: a
`printk` is among them unless the resolver returned an error other than
`-EINVAL`. -/
theorem checkentry_selinux_diag (K : Consts) (E : Selinux)
    (info : xt_secmark_target_info) (st : State)
    (h : (checkentry_selinux K E info st).ret = false) :
    ∃ evs, (checkentry_selinux K E info st).st.trace = st.trace ++ evs ∧
      ((∃ msg, Event.printk msg ∈ evs) ↔
        ¬((E.selinux_string_to_sid
            (c_str (info.u.sel.selctx.set (K.SECMARK_SELCTX_MAX - 1) 0))).1 ≠ 0 ∧
          (E.selinux_string_to_sid
            (c_str (info.u.sel.selctx.set (K.SECMARK_SELCTX_MAX - 1) 0))).1 ≠ -K.EINVAL)) ∧
      ((E.selinux_string_to_sid
          (c_str (info.u.sel.selctx.set (K.SECMARK_SELCTX_MAX - 1) 0))).1 ≠ 0 →
        (E.selinux_string_to_sid
          (c_str (info.u.sel.selctx.set (K.SECMARK_SELCTX_MAX - 1) 0))).1 = -K.EINVAL →
        evs = [Event.selinux_string_to_sid
            (c_str (info.u.sel.selctx.set (K.SECMARK_SELCTX_MAX - 1) 0)),
          Event.printk (Printk.invalid_context
            (c_str (info.u.sel.selctx.set (K.SECMARK_SELCTX_MAX - 1) 0)))]) ∧
      ((E.selinux_string_to_sid
          (c_str (info.u.sel.selctx.set (K.SECMARK_SELCTX_MAX - 1) 0))).1 = 0 →
        (E.selinux_string_to_sid
          (c_str (info.u.sel.selctx.set (K.SECMARK_SELCTX_MAX - 1) 0))).2 = 0 →
        evs = [Event.selinux_string_to_sid
            (c_str (info.u.sel.selctx.set (K.SECMARK_SELCTX_MAX - 1) 0)),
          Event.printk (Printk.unable_to_map
            (c_str (info.u.sel.selctx.set (K.SECMARK_SELCTX_MAX - 1) 0)))]) ∧
      ((E.selinux_string_to_sid
          (c_str (info.u.sel.selctx.set (K.SECMARK_SELCTX_MAX - 1) 0))).1 ≠ 0 →
        (E.selinux_string_to_sid
          (c_str (info.u.sel.selctx.set (K.SECMARK_SELCTX_MAX - 1) 0))).1 ≠ -K.EINVAL →
        evs = [Event.selinux_string_to_sid
            (c_str (info.u.sel.selctx.set (K.SECMARK_SELCTX_MAX - 1) 0))]) := by
  revert h
  unfold checkentry_selinux
  simp only
  generalize c_str (info.u.sel.selctx.set (K.SECMARK_SELCTX_MAX - 1) 0) = str
  generalize E.selinux_string_to_sid str = r
  split_ifs with h1 h2 h3 h4
  · intro _
    refine ⟨[Event.selinux_string_to_sid str, Event.printk (Printk.invalid_context str)],
      by simp, ?_, fun _ _ => rfl, fun h0 => absurd h0 h1, fun _ hn => absurd h2 hn⟩
    exact ⟨fun _ hn => hn.2 h2, fun _ => ⟨Printk.invalid_context str, by simp⟩⟩
  · intro _
    refine ⟨[Event.selinux_string_to_sid str], by simp, ?_, fun _ h0 => absurd h0 h2,
      fun h0 => absurd h0 h1, fun _ _ => rfl⟩
    constructor
    · rintro ⟨msg, hmsg⟩
      simp at hmsg
    · intro hn
      exact absurd ⟨h1, h2⟩ hn
  · intro _
    have h1a : r.1 = 0 := not_not.mp h1
    refine ⟨[Event.selinux_string_to_sid str, Event.printk (Printk.unable_to_map str)],
      by simp, ?_, fun h0 => absurd h1a h0, fun _ _ => rfl, fun h0 => absurd h1a h0⟩
    exact ⟨fun _ hn => hn.1 h1a, fun _ => ⟨Printk.unable_to_map str, by simp⟩⟩
  · intro _
    have h1a : r.1 = 0 := not_not.mp h1
    refine ⟨[Event.selinux_string_to_sid str,
        Event.selinux_secmark_relabel_packet_permission r.2,
        Event.printk Printk.no_relabel_permission],
      by simp, ?_, fun h0 => absurd h1a h0, fun _ h0 => absurd h0 h3,
      fun h0 => absurd h1a h0⟩
    exact ⟨fun _ hn => hn.1 h1a, fun _ => ⟨Printk.no_relabel_permission, by simp⟩⟩
  · intro h; cases h

/-- Claim C17 does not hold as stated: when the resolver fails with the error -12
(out of memory), `secmark_tg_check` returns false and the only call made is the
resolver: no diagnostic message is emitted. -/
theorem secmark_tg_check_silent_reject :
    (secmark_tg_check linuxConsts busySelinux
        { table := "mangle", targinfo := demoRule 1 "system_u:object_r:httpd_t:s0" }
        State.init).ret = false ∧
      (secmark_tg_check linuxConsts busySelinux
        { table := "mangle", targinfo := demoRule 1 "system_u:object_r:httpd_t:s0" }
        State.init).st.trace =
        [Event.selinux_string_to_sid (bytes "system_u:object_r:httpd_t:s0")] ∧
      ∀ msg, Event.printk msg ∉
        (secmark_tg_check linuxConsts busySelinux
          { table := "mangle", targinfo := demoRule 1 "system_u:object_r:httpd_t:s0" }
          State.init).st.trace := by
  have htr : (secmark_tg_check linuxConsts busySelinux
        { table := "mangle", targinfo := demoRule 1 "system_u:object_r:httpd_t:s0" }
        State.init).st.trace =
        [Event.selinux_string_to_sid (bytes "system_u:object_r:httpd_t:s0")] := by decide
  refine ⟨by decide, htr, ?_⟩
  intro msg hmsg
  rw [htr] at hmsg
  simp at hmsg

/-- Claim C17, amended.  When `secmark_tg_check` returns false, a diagnostic
message is among the calls it made, except when the rule reached the resolver
(permitted table, no mode conflict, mode `SECMARK_MODE_SEL`) and the resolver
returned an error other than `-EINVAL`: then the resolver is the only call and
nothing is printed.  When the resolver returns `-EINVAL` the message is the
"invalid SELinux context" one, and when it returns 0 with id 0 it is the "unable
to map SELinux context" one. -/
theorem secmark_tg_check_reject_diag (K : Consts) (E : Selinux) (par : xt_tgchk_param)
    (st : State) (h : (secmark_tg_check K E par st).ret = false) :
    ∃ evs, (secmark_tg_check K E par st).st.trace = st.trace ++ evs ∧
      ((∃ msg, Event.printk msg ∈ evs) ↔
        ¬((par.table = "mangle" ∨ par.table = "security") ∧
          (st.mode = 0 ∨ st.mode = par.targinfo.mode) ∧
          par.targinfo.mode = K.SECMARK_MODE_SEL ∧
          (E.selinux_string_to_sid
            (c_str (par.targinfo.u.sel.selctx.set (K.SECMARK_SELCTX_MAX - 1) 0))).1 ≠ 0 ∧
          (E.selinux_string_to_sid
            (c_str (par.targinfo.u.sel.selctx.set (K.SECMARK_SELCTX_MAX - 1) 0))).1 ≠
              -K.EINVAL)) ∧
      ((par.table = "mangle" ∨ par.table = "security") →
        (st.mode = 0 ∨ st.mode = par.targinfo.mode) →
        par.targinfo.mode = K.SECMARK_MODE_SEL →
        ((E.selinux_string_to_sid
            (c_str (par.targinfo.u.sel.selctx.set (K.SECMARK_SELCTX_MAX - 1) 0))).1 ≠ 0 →
          (E.selinux_string_to_sid
            (c_str (par.targinfo.u.sel.selctx.set (K.SECMARK_SELCTX_MAX - 1) 0))).1 =
              -K.EINVAL →
          evs = [Event.selinux_string_to_sid
              (c_str (par.targinfo.u.sel.selctx.set (K.SECMARK_SELCTX_MAX - 1) 0)),
            Event.printk (Printk.invalid_context
              (c_str (par.targinfo.u.sel.selctx.set (K.SECMARK_SELCTX_MAX - 1) 0)))]) ∧
        ((E.selinux_string_to_sid
            (c_str (par.targinfo.u.sel.selctx.set (K.SECMARK_SELCTX_MAX - 1) 0))).1 = 0 →
          (E.selinux_string_to_sid
            (c_str (par.targinfo.u.sel.selctx.set (K.SECMARK_SELCTX_MAX - 1) 0))).2 = 0 →
          evs = [Event.selinux_string_to_sid
              (c_str (par.targinfo.u.sel.selctx.set (K.SECMARK_SELCTX_MAX - 1) 0)),
            Event.printk (Printk.unable_to_map
              (c_str (par.targinfo.u.sel.selctx.set (K.SECMARK_SELCTX_MAX - 1) 0)))]) ∧
        ((E.selinux_string_to_sid
            (c_str (par.targinfo.u.sel.selctx.set (K.SECMARK_SELCTX_MAX - 1) 0))).1 ≠ 0 →
          (E.selinux_string_to_sid
            (c_str (par.targinfo.u.sel.selctx.set (K.SECMARK_SELCTX_MAX - 1) 0))).1 ≠
              -K.EINVAL →
          evs = [Event.selinux_string_to_sid
            (c_str (par.targinfo.u.sel.selctx.set (K.SECMARK_SELCTX_MAX - 1) 0))])) := by
  revert h
  unfold secmark_tg_check
  simp only
  split_ifs with h1 h2 h3 h4 h5
  · intro _
    refine ⟨[Event.printk (Printk.wrong_table par.table)], rfl, ?_, ?_⟩
    · refine ⟨fun _ hn => ?_, fun _ => ⟨Printk.wrong_table par.table, by simp⟩⟩
      rcases hn.1 with ht | ht
      · exact h1.1 ht
      · exact h1.2 ht
    · intro ht
      rcases ht with ht | ht
      · exact absurd ht h1.1
      · exact absurd ht h1.2
  · intro _
    refine ⟨[Event.printk (Printk.mode_mix st.mode par.targinfo.mode)], rfl, ?_, ?_⟩
    · refine ⟨fun _ hn => ?_,
        fun _ => ⟨Printk.mode_mix st.mode par.targinfo.mode, by simp⟩⟩
      rcases hn.2.1 with hm | hm
      · exact h2.1 hm
      · exact h2.2 hm
    · intro _ hm
      rcases hm with hm | hm
      · exact absurd hm h2.1
      · exact absurd hm h2.2
  · intro _
    have ht : par.table = "mangle" ∨ par.table = "security" := by
      by_cases ha : par.table = "mangle"
      · exact Or.inl ha
      · by_cases hb : par.table = "security"
        · exact Or.inr hb
        · exact absurd ⟨ha, hb⟩ h1
    have hm : st.mode = 0 ∨ st.mode = par.targinfo.mode := by
      by_cases ha : st.mode = 0
      · exact Or.inl ha
      · by_cases hb : st.mode = par.targinfo.mode
        · exact Or.inr hb
        · exact absurd ⟨ha, hb⟩ h2
    obtain ⟨evs, htr, hiff, ha, hb, hc⟩ := checkentry_selinux_diag K E par.targinfo st h4
    refine ⟨evs, htr, ?_, fun _ _ _ => ⟨ha, hb, hc⟩⟩
    rw [hiff]
    constructor
    · intro hn hall
      exact hn hall.2.2.2
    · intro hn hall
      exact hn ⟨ht, hm, h3, hall⟩
  · intro h; cases h
  · intro h; cases h
  · intro _
    refine ⟨[Event.printk (Printk.invalid_mode par.targinfo.mode)], rfl, ?_, ?_⟩
    · exact ⟨fun _ hn => h3 hn.2.2.1,
        fun _ => ⟨Printk.invalid_mode par.targinfo.mode, by simp⟩⟩
    · intro _ _ hs; exact absurd hs h3

/-- An instance of the amended claim C17: a context the resolver reports as
malformed (`-EINVAL`) is rejected with a diagnostic among the calls. -/
theorem secmark_tg_check_reject_diag_witness :
    (secmark_tg_check linuxConsts demoSelinux
        { table := "mangle", targinfo := demoRule 1 "no such context" }
        State.init).ret = false ∧
      ∃ msg, Event.printk msg ∈
        (secmark_tg_check linuxConsts demoSelinux
          { table := "mangle", targinfo := demoRule 1 "no such context" }
          State.init).st.trace := by
  refine ⟨by decide, ?_⟩
  obtain ⟨evs, htr, hiff, -⟩ := secmark_tg_check_reject_diag linuxConsts demoSelinux
    { table := "mangle", targinfo := demoRule 1 "no such context" } State.init (by decide)
  obtain ⟨msg, hmsg⟩ := hiff.mpr (fun hn => hn.2.2.2.2 (by decide))
  exact ⟨msg, by rw [htr]; exact List.mem_append_right _ hmsg⟩

end XtSecmark
